import Mathlib

/-!
# Lime-Cord: a verification development of `bot.js`

A shallow embedding of the command dispatcher (`interactionCreate`), the
passive listener (`messageCreate`), the duration parser (`parseTime`) and the
configuration check (`validateConfig`) of `src/bot.js`, followed by the theorems
that settle the specification's claims.

Conventions of the embedding:

* JavaScript strings are Lean strings, `null` and `undefined` are `none`;
* the numbers computed by `parseTime` are doubles: non-negative integers
  rounded to the nearest double after `parseInt` and after each multiplication,
  or `Infinity`; the length of a string is its number of UTF-16 code units;
* an embed is the record of what the `EmbedBuilder` setters were given, and the
  checks of the setters (which throw) are made before the embed is sent;
* a JavaScript `Map` that the code only reads through `has`, `get`, `set` and
  `delete` is a finite-support function from keys to optional values;
* everything the program obtains from the chat platform or the network is an
  input of the model (`Env`, `Interaction`, `Message`), and every call it makes
  to them is recorded, in order, in a log of `Effect`s.
-/

namespace LimeCord

/-! ## JavaScript helpers -/

/-- The class `\d` of a JavaScript regular expression: the ASCII digits. -/
def isDigitChar (c : Char) : Bool := c.isDigit

/-- The class `[smhd]` of the regular expression of `parseTime`. -/
def isUnitChar (c : Char) : Bool := c == 's' || c == 'm' || c == 'h' || c == 'd'

/-- The value of one ASCII digit. -/
def digitValue (c : Char) : Nat := c.toNat - 48

/-- The mathematical integer written by a string of decimal digits, accumulated
from the left in radix 10. -/
def mathInt (ds : List Char) : Nat :=
  ds.foldl (fun acc c => 10 * acc + digitValue c) 0

/-- The JavaScript numbers that `parseTime` can compute: the doubles that are
non-negative integers, and `Infinity`. -/
inductive JsNumber where
  | finite (n : Nat)
  | infinity
deriving DecidableEq

instance (n : Nat) : OfNat JsNumber n := ⟨.finite n⟩

/-- The number of binary digits of `n`, by halving at most `fuel` times. -/
def binaryDigits : Nat → Nat → Nat
  | 0, _ => 0
  | fuel + 1, n => if n = 0 then 0 else binaryDigits fuel (n / 2) + 1

/-- The double nearest to the natural number `n`, ties to the even significand
(IEEE 754 round-to-nearest): exact below 2^53; above, the 53 leading binary
digits are kept and rounded on the rest; `Infinity` when the rounded value has
more than 1024 binary digits, that is from 2^1024 on. -/
def toDouble (n : Nat) : JsNumber :=
  if n < 2 ^ 53 then .finite n
  else
    let e := binaryDigits n n - 53
    let q := n / 2 ^ e
    let r := n % 2 ^ e
    let half := 2 ^ (e - 1)
    let q2 := if r > half ∨ (r = half ∧ q % 2 = 1) then q + 1 else q
    if binaryDigits (q2 * 2 ^ e) (q2 * 2 ^ e) ≤ 1024 then .finite (q2 * 2 ^ e) else .infinity

/-- The product `a * k` of a number by a positive integer constant, rounded to
the nearest double. -/
def jsMul (a : JsNumber) (k : Nat) : JsNumber :=
  match a with
  | .finite n => toDouble (n * k)
  | .infinity => .infinity

/-- `parseInt(ds)` for a string of decimal digits: the Number value of the
integer that the digits write in radix 10. -/
def parseInt (ds : List Char) : JsNumber := toDouble (mathInt ds)

/-- `timeStr.match(/^(\d+)([smhd])$/)`: the two capture groups, or `none` when
the string does not match. The greedy `\d+` takes the longest run of digits at
the start, which must be non-empty; exactly one character, of class `[smhd]`,
must remain before the end of the input. -/
def matchTime (timeStr : String) : Option (List Char × Char) :=
  match timeStr.toList.span isDigitChar with
  | (d :: ds, [u]) => if isUnitChar u then some (d :: ds, u) else none
  | _ => none

/-- `parseTime(timeStr)` of `bot.js`; `null` is `none`. Each product is a
multiplication of doubles, from left to right. -/
def parseTime (timeStr : String) : Option JsNumber :=
  match matchTime timeStr with
  | none => none
  | some (digits, unit) =>
    let value := parseInt digits
    if unit = 's' then some (jsMul value 1000)
    else if unit = 'm' then some (jsMul (jsMul value 60) 1000)
    else if unit = 'h' then some (jsMul (jsMul (jsMul value 60) 60) 1000)
    else if unit = 'd' then some (jsMul (jsMul (jsMul (jsMul value 24) 60) 60) 1000)
    else none

/-! ## The specification's reading of a duration -/

/-- In the specification's words: `s` is one or more decimal digits followed by
exactly one of `s`, `m`, `h`, `d`, with nothing before or after. -/
def FullMatch (s : String) (ds : List Char) (u : Char) : Prop :=
  s.toList = ds ++ [u] ∧ ds ≠ [] ∧ (∀ c ∈ ds, '0' ≤ c ∧ c ≤ '9') ∧
    (u = 's' ∨ u = 'm' ∨ u = 'h' ∨ u = 'd')

/-- The decimal number written by a string of digits, most significant first. -/
def decimalNumber (ds : List Char) : Nat :=
  Nat.ofDigits 10 (ds.reverse.map fun c => c.toNat - '0'.toNat)

/-- The specification's table of milliseconds per unit. -/
def unitFactor (u : Char) : Nat :=
  if u = 's' then 1000 else if u = 'm' then 60000
  else if u = 'h' then 3600000 else if u = 'd' then 86400000 else 0

/-- Template interpolation of a possibly absent string: a `null` prints as the
four letters `null`. -/
def jsStr (o : Option String) : String := o.getD "null"

/-- The operator `a || b` on a possibly absent string: `null` and the empty
string are falsy. -/
def jsOr (o : Option String) (dflt : String) : String :=
  match o with
  | none => dflt
  | some s => if s = "" then dflt else s

/-- The property `length` of a string: its number of UTF-16 code units. -/
def jsLength (s : String) : Nat :=
  (s.toList.map fun c => if c.toNat < 0x10000 then 1 else 2).sum

/-- White space and line terminators, as removed by `String.prototype.trim`. -/
def isJsSpace (c : Char) : Bool :=
  c.toNat = 0x09 || c.toNat = 0x0A || c.toNat = 0x0B || c.toNat = 0x0C || c.toNat = 0x0D ||
  c.toNat = 0x20 || c.toNat = 0xA0 || c.toNat = 0x1680 ||
  (0x2000 ≤ c.toNat && c.toNat ≤ 0x200A) || c.toNat = 0x2028 || c.toNat = 0x2029 ||
  c.toNat = 0x202F || c.toNat = 0x205F || c.toNat = 0x3000 || c.toNat = 0xFEFF

/-- `o.trim()`. -/
def jsTrim (o : List Char) : List Char :=
  ((o.dropWhile isJsSpace).reverse.dropWhile isJsSpace).reverse

/-- `str.split(',')` on the characters of the string: the segments between the
commas, in order; the empty string has the one segment `""`. -/
def splitComma : List Char → List (List Char)
  | [] => [[]]
  | c :: cs =>
    if c = ',' then [] :: splitComma cs
    else
      match splitComma cs with
      | [] => [[c]]
      | seg :: segs => (c :: seg) :: segs

/-! ## Data model -/

/-- A user object of the platform, with the fields and methods the bot reads. -/
structure User where
  id : String
  tag : String
  displayName : String
  bot : Bool
  createdTimestamp : Nat
  /-- The method `displayAvatarURL`, by extension and size. -/
  displayAvatarURL : Option String → Option Nat → String

/-- A role of a guild member: its name and its mention text (`toString()`). -/
structure Role where
  name : String
  mention : String

/-- A guild member, as returned by `guild.members.fetch`. -/
structure Member where
  kickable : Bool
  bannable : Bool
  joinedTimestamp : Nat
  roles : List Role

/-- The guild of an interaction. `fetchMember id` is the result of
`guild.members.fetch(id)`, `none` when the call rejects. -/
structure Guild where
  name : String
  iconURL : Option String
  memberCount : Nat
  channelCount : Nat
  roleCount : Nat
  createdTimestamp : Nat
  fetchMember : String → Option Member

/-- The channel of an interaction. `bulkDelete amount` is `messages.size` of
`channel.bulkDelete(amount, true)`, `none` when the call rejects. -/
structure Channel where
  bulkDelete : Option Int → Option Nat

/-- The options bag of an interaction: an option that was not supplied reads
as `null`. -/
structure Options where
  getUser : String → Option User
  getString : String → Option String
  getInteger : String → Option Int

/-- An inbound interaction event. -/
structure Interaction where
  isChatInputCommand : Bool
  commandName : String
  options : Options
  user : User
  guild : Option Guild
  channel : Option Channel

/-- An inbound chat message: its author and `message.mentions.users`, in the
order in which `forEach` visits them. -/
structure Message where
  author : User
  mentions : List User

/-- What the run of one handler obtains from outside the program. -/
structure Env where
  /-- The value of `Date.now()`. -/
  now : Nat
  /-- The value of `Math.floor(Math.random() * n)`. -/
  random : Nat → Nat
  /-- Whether the reply primitive called as the k-th one of this run (reply,
  deferReply, editReply, followUp; counted from 0) rejects. -/
  replyFails : Nat → Bool
  /-- Whether `member.kick` rejects. -/
  kickFails : Bool
  /-- Whether `member.ban` rejects. -/
  banFails : Bool
  /-- Whether `pollMessage.react` rejects for the option of index i. -/
  reactFails : Nat → Bool
  /-- Whether `axios.get` of the pat image rejects. -/
  patFails : Bool
  /-- The title and url of `axios.get` of the meme, `none` when it rejects. -/
  meme : Option (String × String)
  /-- Whether the embed builder accepts the string as the URL of an image (a
  well-formed http, https or attachment URL). -/
  acceptsUrl : String → Bool

/-- One entry of `storage.warnings`. -/
structure WarningRecord where
  reason : Option String
  moderator : String
  timestamp : Nat
deriving DecidableEq

/-- One entry of `storage.afkUsers`. -/
structure AfkRecord where
  reason : String
  timestamp : Nat
deriving DecidableEq

/-- A JavaScript `Map` with string keys, as seen through `has`, `get`, `set`
and `delete`. -/
abbrev JsMap (α : Type) := String → Option α

/-- `new Map()`. -/
def JsMap.empty {α : Type} : JsMap α := fun _ => none

/-- `map.has(k)`. -/
def JsMap.has {α : Type} (m : JsMap α) (k : String) : Bool := (m k).isSome

/-- `map.get(k)`. -/
def JsMap.get {α : Type} (m : JsMap α) (k : String) : Option α := m k

/-- `map.set(k, v)`. -/
def JsMap.set {α : Type} (m : JsMap α) (k : String) (v : α) : JsMap α :=
  fun k2 => if k2 = k then some v else m k2

/-- `map.delete(k)`. -/
def JsMap.delete {α : Type} (m : JsMap α) (k : String) : JsMap α :=
  fun k2 => if k2 = k then none else m k2

/-- The object `storage`: the three tables the handlers read or write (the
tables `autoRoles`, `polls` and `reminderTimeouts` are never touched). -/
structure Storage where
  warnings : JsMap (List WarningRecord)
  afkUsers : JsMap AfkRecord
  customCommands : JsMap String

/-- The storage at startup. -/
def Storage.empty : Storage :=
  ⟨JsMap.empty, JsMap.empty, JsMap.empty⟩

/-- One field of an embed. -/
structure EmbedField where
  name : String
  value : String
  inline : Bool
deriving DecidableEq

/-- The data collected by an `EmbedBuilder`. -/
structure Embed where
  title : Option String
  description : Option String
  image : Option String
  thumbnail : Option String
  color : Option String
  footer : Option String
  fields : List EmbedField
deriving DecidableEq

/-- `new EmbedBuilder()`. -/
def Embed.new : Embed := ⟨none, none, none, none, none, none, []⟩

/-- The check of the embed builder on a text: its length, in UTF-16 code units,
is between 1 and `max`. -/
def lengthWithin (max : Nat) (text : String) : Bool :=
  decide (1 ≤ jsLength text) && decide (jsLength text ≤ max)

/-- The checks of the setters of `EmbedBuilder`, which throw when they fail: a
title of 1 to 256 code units, a description of 1 to 4096, a footer text of 1 to
2048, image and thumbnail URLs that are accepted, at most 25 fields with a name
of 1 to 256 and a value of 1 to 1024. A part that was not set, or set to `null`,
passes. -/
def Embed.valid (acceptsUrl : String → Bool) (e : Embed) : Bool :=
  e.title.all (lengthWithin 256) && e.description.all (lengthWithin 4096) &&
  e.footer.all (lengthWithin 2048) && e.image.all acceptsUrl &&
  e.thumbnail.all acceptsUrl && decide (e.fields.length ≤ 25) &&
  e.fields.all fun f => lengthWithin 256 f.name && lengthWithin 1024 f.value

/-- The argument of a reply primitive. -/
inductive Payload where
  | text (content : String)
  | embeds (embed : Embed)
  | ephemeral (content : String)
deriving DecidableEq

/-- The calls the program makes to the platform, as they are logged. -/
inductive Effect where
  | reply (p : Payload)
  | deferReply
  | editReply (p : Payload)
  | followUp (p : Payload)
  | react (emoji : String)
  | kick (userId : String) (reason : String)
  | ban (userId : String) (reason : String)
  | bulkDelete (amount : Option Int)
  /-- The call `setTimeout(() => interaction.followUp(content), delay)`. -/
  | setTimeout (followUpContent : String) (delay : JsNumber)
  /-- The call `message.reply(content)` of the passive listener. -/
  | messageReply (content : String)
deriving DecidableEq

/-! ## Running a handler -/

/-- The state of one run of the dispatcher: the storage, the flags `replied`
and `deferred` of the interaction object, the number of reply primitives called
so far, and the log of the calls that went through. -/
structure Ctx where
  storage : Storage
  replied : Bool
  deferred : Bool
  calls : Nat
  log : List Effect

/-- The context in which a run starts. -/
def Ctx.start (st : Storage) : Ctx := ⟨st, false, false, 0, []⟩

/-- How a piece of handler code ends: it completes, or it throws. -/
inductive Res where
  | ok (c : Ctx)
  | threw (c : Ctx)

/-- The context in which a piece of handler code ends. -/
def Res.ctx : Res → Ctx
  | .ok c => c
  | .threw c => c

/-- Whether a piece of handler code ended by throwing. -/
def Res.isThrow : Res → Bool
  | .ok _ => false
  | .threw _ => true

/-- A piece of handler code. -/
abbrev Code := Ctx → Res

/-- The empty statement. -/
def skip : Code := fun c => .ok c

/-- An expression that throws, such as a property read on `null`. -/
def raise : Code := fun c => .threw c

/-- The sequence `a; b`. -/
def andThen (a b : Code) : Code := fun c =>
  match a c with
  | .ok c2 => b c2
  | .threw c2 => .threw c2

/-- The statement `try a catch (error) h`. -/
def tryCatch (a h : Code) : Code := fun c =>
  match a c with
  | .ok c2 => .ok c2
  | .threw c2 => h c2

/-- A call to the platform that is logged when it goes through. -/
def perform (fails : Bool) (e : Effect) : Code := fun c =>
  if fails then .threw c else .ok { c with log := c.log ++ [e] }

/-- An update of `storage`. -/
def updateStorage (f : Storage → Storage) : Code := fun c =>
  .ok { c with storage := f c.storage }

/-- The primitive `interaction.reply(p)` of the library: it throws when the
interaction was already replied to or deferred, and sets `replied` when the
call goes through. -/
def reply (env : Env) (p : Payload) : Code := fun c =>
  if c.replied || c.deferred then .threw c
  else if env.replyFails c.calls then .threw { c with calls := c.calls + 1 }
  else .ok { c with replied := true, calls := c.calls + 1, log := c.log ++ [.reply p] }

/-- The primitive `interaction.deferReply()` of the library: it throws when the
interaction was already replied to or deferred, and sets `deferred` when the
call goes through. -/
def deferReply (env : Env) : Code := fun c =>
  if c.replied || c.deferred then .threw c
  else if env.replyFails c.calls then .threw { c with calls := c.calls + 1 }
  else .ok { c with deferred := true, calls := c.calls + 1, log := c.log ++ [.deferReply] }

/-- The primitive `interaction.editReply(p)` of the library: it throws when the
interaction was neither replied to nor deferred, and sets `replied` when the
call goes through. -/
def editReply (env : Env) (p : Payload) : Code := fun c =>
  if !c.replied && !c.deferred then .threw c
  else if env.replyFails c.calls then .threw { c with calls := c.calls + 1 }
  else .ok { c with replied := true, calls := c.calls + 1, log := c.log ++ [.editReply p] }

/-- The primitive `interaction.followUp(p)` of the library: it throws when the
interaction was neither replied to nor deferred. -/
def followUp (env : Env) (p : Payload) : Code := fun c =>
  if !c.replied && !c.deferred then .threw c
  else if env.replyFails c.calls then .threw { c with calls := c.calls + 1 }
  else .ok { c with calls := c.calls + 1, log := c.log ++ [.followUp p] }

/-- A reply primitive called on an embed made with `EmbedBuilder`: when a
check of the setters fails the builder throws, before the primitive is called. -/
def withEmbed (env : Env) (primitive : Payload → Code) (e : Embed) : Code :=
  if e.valid env.acceptsUrl then primitive (.embeds e) else raise

/-! ## The command handlers -/

/-- The mark that starts the failure replies. -/
def crossMark : String := "\u201a\xf9\xe5"

/-- The mark that starts the success replies. -/
def checkMark : String := "\u201a\xfa\xd6"

/-- The text that follows the number of a poll option. -/
def keycap : String := "\xd4\u220f\xe8\u201a\xc9\xa3"

/-- The function `generatePetPetGif`: its field `success`. The failure of the
HTTP call is caught inside the function. -/
def generatePetPetGif (env : Env) (_avatarUrl : String) : Bool := !env.patFails

/-- The case `petpet`. -/
def petpetCase (env : Env) (i : Interaction) : Code :=
  andThen (deferReply env) <|
    let targetUser := (i.options.getUser "user").getD i.user
    let avatarUrl := targetUser.displayAvatarURL (some "png") (some 128)
    if generatePetPetGif env avatarUrl then
      withEmbed env (editReply env) { Embed.new with
        title := some (i.user.displayName ++ " pets " ++ targetUser.displayName ++ "!")
        description := some "*Pat pat pat* \uf8ff\xfc\xa7\xf3"
        image := some avatarUrl
        color := some "#FFB6C1"
        footer := some "Pet pet! So cute!" }
    else
      editReply env (.text (crossMark ++ " Failed to generate pet pet!"))

/-- The case `kick`. -/
def kickCase (env : Env) (i : Interaction) : Code :=
  let kickUser := i.options.getUser "user"
  let kickReason := jsOr (i.options.getString "reason") "No reason provided"
  tryCatch
    (match i.guild, kickUser with
     | some guild, some kickUser =>
       match guild.fetchMember kickUser.id with
       | none => raise
       | some kickMember =>
         if kickMember.kickable then
           andThen (perform env.kickFails (.kick kickUser.id kickReason))
             (reply env (.text (checkMark ++ " " ++ kickUser.tag ++
               " has been kicked. Reason: " ++ kickReason)))
         else
           reply env (.text (crossMark ++
             " Cannot kick this user (insufficient permissions or higher role)."))
     | _, _ => raise)
    (reply env (.text (crossMark ++ " Failed to kick user. They may not be in the server.")))

/-- The case `ban`. -/
def banCase (env : Env) (i : Interaction) : Code :=
  let banUser := i.options.getUser "user"
  let banReason := jsOr (i.options.getString "reason") "No reason provided"
  tryCatch
    (match i.guild, banUser with
     | some guild, some banUser =>
       match guild.fetchMember banUser.id with
       | none => raise
       | some banMember =>
         if banMember.bannable then
           andThen (perform env.banFails (.ban banUser.id banReason))
             (reply env (.text (checkMark ++ " " ++ banUser.tag ++
               " has been banned. Reason: " ++ banReason)))
         else
           reply env (.text (crossMark ++
             " Cannot ban this user (insufficient permissions or higher role)."))
     | _, _ => raise)
    (reply env (.text (crossMark ++ " Failed to ban user. They may not be in the server.")))

/-- The two statements of the case `warn` that write `storage.warnings`: the
entry of the user is created empty when it is absent, then the record is
pushed at the end of its array. -/
def pushWarning (id : String) (w : WarningRecord) (st : Storage) : Storage :=
  let warnings1 := if !st.warnings.has id then st.warnings.set id [] else st.warnings
  match warnings1.get id with
  | some ws => { st with warnings := warnings1.set id (ws ++ [w]) }
  | none => { st with warnings := warnings1 }

/-- The case `warn`. -/
def warnCase (env : Env) (i : Interaction) : Code :=
  let warnUser := i.options.getUser "user"
  let warnReason := i.options.getString "reason"
  match warnUser with
  | none => raise
  | some warnUser =>
    andThen
      (updateStorage (pushWarning warnUser.id
        { reason := warnReason, moderator := i.user.id, timestamp := env.now }))
      (reply env (.text ("\u201a\xf6\u2020\xd4\u220f\xe8 " ++ warnUser.tag ++
        " has been warned. Reason: " ++ jsStr warnReason)))

/-- The line of the warnings list for the record of index `i`. -/
def warningLine (i : Nat) (w : WarningRecord) : String :=
  toString (i + 1) ++ ". " ++ jsStr w.reason ++ " - <@" ++ w.moderator ++ ">"

/-- The description of the warnings embed. -/
def warningsDescription (warnings : List WarningRecord) : String :=
  if warnings.length = 0 then "No warnings"
  else "\n".intercalate (warnings.enum.map fun p => warningLine p.1 p.2)

/-- The case `warnings`. -/
def warningsCase (env : Env) (i : Interaction) : Code := fun c =>
  let checkUser := i.options.getUser "user"
  match checkUser with
  | none => raise c
  | some checkUser =>
    let warnings := (c.storage.warnings.get checkUser.id).getD []
    withEmbed env (reply env) { Embed.new with
      title := some ("Warnings for " ++ checkUser.tag)
      color := some "#ffcc00"
      description := some (warningsDescription warnings) } c

/-- The case `clear`. -/
def clearCase (env : Env) (i : Interaction) : Code :=
  let amount := i.options.getInteger "amount"
  tryCatch
    (match i.channel with
     | none => raise
     | some channel =>
       match channel.bulkDelete amount with
       | none => raise
       | some size =>
         andThen (perform false (.bulkDelete amount))
           (reply env (.text (checkMark ++ " Cleared " ++ toString size ++ " messages."))))
    (reply env (.text (crossMark ++
      " Failed to clear messages. Messages may be too old (>14 days).")))

/-- The case `avatar`. -/
def avatarCase (env : Env) (i : Interaction) : Code :=
  let avatarUser := (i.options.getUser "user").getD i.user
  withEmbed env (reply env) { Embed.new with
    title := some (avatarUser.tag ++ "\x27s Avatar")
    image := some (avatarUser.displayAvatarURL none (some 512))
    color := some "#5865F2" }

/-- The relative time tag of a timestamp in milliseconds. -/
def timeTag (ms : Nat) : String := "<t:" ++ toString (ms / 1000) ++ ":R>"

/-- The value of the field `Roles` of the user embed. -/
def rolesValue (roles : List Role) : String :=
  let joined := ", ".intercalate ((roles.filter fun r => r.name != "@everyone").map
    fun r => r.mention)
  if joined = "" then "None" else joined

/-- The case `userinfo`. -/
def userinfoCase (env : Env) (i : Interaction) : Code :=
  let infoUser := (i.options.getUser "user").getD i.user
  match i.guild with
  | none => raise
  | some guild =>
    match guild.fetchMember infoUser.id with
    | none => raise
    | some member =>
      withEmbed env (reply env) { Embed.new with
        title := some ("User Info: " ++ infoUser.tag)
        thumbnail := some (infoUser.displayAvatarURL none none)
        fields := [
          ⟨"ID", infoUser.id, true⟩,
          ⟨"Created", timeTag infoUser.createdTimestamp, true⟩,
          ⟨"Joined", timeTag member.joinedTimestamp, true⟩,
          ⟨"Roles", rolesValue member.roles, false⟩]
        color := some "#5865F2" }

/-- The case `serverinfo`. -/
def serverinfoCase (env : Env) (i : Interaction) : Code :=
  match i.guild with
  | none => raise
  | some guild =>
    withEmbed env (reply env) { Embed.new with
      title := some guild.name
      thumbnail := guild.iconURL
      fields := [
        ⟨"Members", toString guild.memberCount, true⟩,
        ⟨"Channels", toString guild.channelCount, true⟩,
        ⟨"Roles", toString guild.roleCount, true⟩,
        ⟨"Created", timeTag guild.createdTimestamp, true⟩]
      color := some "#5865F2" }

/-- The array `pollOptions`: the segments of the options string, trimmed. -/
def pollOptions (options : String) : List String :=
  (splitComma options.toList).map fun o => String.mk (jsTrim o)

/-- The line of the poll for the option of index `i`. -/
def pollLine (i : Nat) (opt : String) : String :=
  toString (i + 1) ++ keycap ++ " " ++ opt

/-- The emoji of the reaction for the option of index `i`. -/
def pollEmoji (i : Nat) : String := toString (i + 1) ++ keycap

/-- The loop `for (let i = 0; i < n; i++) await pollMessage.react(...)`, from
index `i` on, over the remaining `k` options. -/
def reactLoop (env : Env) : Nat → Nat → Code
  | _, 0 => skip
  | i, k + 1 => andThen (perform (env.reactFails i) (.react (pollEmoji i))) (reactLoop env (i + 1) k)

/-- The case `poll`. -/
def pollCase (env : Env) (i : Interaction) : Code :=
  let question := i.options.getString "question"
  match i.options.getString "options" with
  | none => raise
  | some options =>
    let pollOptions := pollOptions options
    if pollOptions.length < 2 ∨ pollOptions.length > 10 then
      reply env (.text (crossMark ++ " Poll must have 2-10 options."))
    else
      andThen
        (withEmbed env (reply env) { Embed.new with
          title := some ("\uf8ff\xfc\xec\xe4 " ++ jsStr question)
          description := some ("\n".intercalate
            (pollOptions.enum.map fun p => pollLine p.1 p.2))
          color := some "#5865F2" })
        (reactLoop env 0 pollOptions.length)

/-- The test `!v` on the result of `parseTime`: `null` and `0` are falsy,
every other number, `Infinity` included, is truthy. -/
def jsNot (v : Option JsNumber) : Bool :=
  match v with
  | none => true
  | some (.finite n) => n == 0
  | some .infinity => false

/-- The case `remind`. -/
def remindCase (env : Env) (i : Interaction) : Code :=
  let message := i.options.getString "message"
  match i.options.getString "time" with
  | none => raise
  | some timeStr =>
    let timeMs := parseTime timeStr
    if jsNot timeMs then
      reply env (.text (crossMark ++ " Invalid time format. Use format like: 5m, 1h, 2d"))
    else
      andThen
        (reply env (.text ("\u201a\xe8\u221e Reminder set for " ++ timeStr ++ "!")))
        (perform false
          (.setTimeout ("\uf8ff\xfc\xee\xee Reminder: " ++ jsStr message) (timeMs.getD 0)))

/-- The case `afk`. -/
def afkCase (env : Env) (i : Interaction) : Code :=
  let afkReason := jsOr (i.options.getString "reason") "AFK"
  andThen
    (updateStorage fun st =>
      { st with afkUsers := st.afkUsers.set i.user.id { reason := afkReason, timestamp := env.now } })
    (reply env (.text ("\uf8ff\xfc\xf2\xa5 You are now AFK: " ++ afkReason)))

/-- The case `meme`. -/
def memeCase (env : Env) (_i : Interaction) : Code :=
  andThen (deferReply env) <|
    tryCatch
      (match env.meme with
       | none => raise
       | some (title, url) =>
         withEmbed env (editReply env) { Embed.new with
           title := some title
           image := some url
           color := some "#ff6b6b" })
      (editReply env (.text (crossMark ++ " Failed to fetch meme!")))

/-- The array `jokes`. -/
def jokes : List String := [
  "Why don\x27t scientists trust atoms? Because they make up everything!",
  "Why did the scarecrow win an award? He was outstanding in his field!",
  "Why don\x27t eggs tell jokes? They\x27d crack each other up!",
  "What do you call a fake noodle? An impasta!",
  "Why did the math book look so sad? Because it had too many problems!"]

/-- The case `joke`. -/
def jokeCase (env : Env) (_i : Interaction) : Code :=
  reply env (.text (jokes.getD (env.random jokes.length % jokes.length) ""))

/-- The array `responses` of the case `8ball`. -/
def responses : List String := [
  "It is certain", "Reply hazy, try again", "Don\x27t count on it",
  "It is decidedly so", "Ask again later", "My reply is no",
  "Without a doubt", "Better not tell you now", "My sources say no",
  "Yes definitely", "Cannot predict now", "Outlook not so good",
  "You may rely on it", "Concentrate and ask again", "Very doubtful"]

/-- The case `8ball`. -/
def eightBallCase (env : Env) (i : Interaction) : Code :=
  let ballQuestion := i.options.getString "question"
  let response := responses.getD (env.random responses.length % responses.length) ""
  reply env (.text ("\uf8ff\xfc\xe9\xb1 **" ++ jsStr ballQuestion ++ "**\n" ++ response))

/-- The case `help`. -/
def helpCase (env : Env) (_i : Interaction) : Code :=
  withEmbed env (reply env) { Embed.new with
    title := some "\uf8ff\xfc\xa7\xf1 Bot Commands"
    description := some "Here are all available commands:"
    fields := [
      ⟨"\uf8ff\xfc\xe9\xae Fun Commands",
        "\x60/petpet\x60 \x60/avatar\x60 \x60/userinfo\x60 \x60/serverinfo\x60 \x60/poll\x60 \x60/meme\x60 \x60/joke\x60 \x60/8ball\x60", false⟩,
      ⟨"\uf8ff\xfc\xf5\xb0\xd4\u220f\xe8 Moderation",
        "\x60/kick\x60 \x60/ban\x60 \x60/warn\x60 \x60/warnings\x60 \x60/clear\x60", false⟩,
      ⟨"\uf8ff\xfc\xee\xdf Utility",
        "\x60/remind\x60 \x60/afk\x60 \x60/weather\x60 \x60/translate\x60 \x60/qr\x60", false⟩,
      ⟨"\uf8ff\xfc\xe9\xb5 Music", "\x60/play\x60 \x60/stop\x60 (Basic implementation)", false⟩,
      ⟨"\uf8ff\xfc\xed\u221e Economy",
        "\x60/balance\x60 \x60/daily\x60 (Basic implementation)", false⟩,
      ⟨"\u201a\xf6\xf4\xd4\u220f\xe8 Custom", "\x60/addcmd\x60 (Add custom commands)", false⟩]
    color := some "#5865F2"
    footer := some "Made with \u201a\xf9\xa7\xd4\u220f\xe8 using Discord.js" }

/-- The default case: the lookup among the custom commands. -/
def defaultCase (env : Env) (i : Interaction) : Code := fun c =>
  if c.storage.customCommands.has i.commandName then
    reply env (.text (jsStr (c.storage.customCommands.get i.commandName))) c
  else
    reply env (.text (crossMark ++ " Command not implemented yet!")) c

/-- The statement `switch (commandName)`. -/
def switchCommand (env : Env) (i : Interaction) : Code :=
  if i.commandName = "petpet" then petpetCase env i
  else if i.commandName = "kick" then kickCase env i
  else if i.commandName = "ban" then banCase env i
  else if i.commandName = "warn" then warnCase env i
  else if i.commandName = "warnings" then warningsCase env i
  else if i.commandName = "clear" then clearCase env i
  else if i.commandName = "avatar" then avatarCase env i
  else if i.commandName = "userinfo" then userinfoCase env i
  else if i.commandName = "serverinfo" then serverinfoCase env i
  else if i.commandName = "poll" then pollCase env i
  else if i.commandName = "remind" then remindCase env i
  else if i.commandName = "afk" then afkCase env i
  else if i.commandName = "meme" then memeCase env i
  else if i.commandName = "joke" then jokeCase env i
  else if i.commandName = "8ball" then eightBallCase env i
  else if i.commandName = "help" then helpCase env i
  else defaultCase env i

/-- The text `errorMessage` of the catch block. -/
def errorMessage : String := crossMark ++ " An error occurred while executing this command."

/-- The catch block of the dispatcher. -/
def catchBlock (env : Env) : Code := fun c =>
  if !c.replied && !c.deferred then reply env (.ephemeral errorMessage) c
  else if c.deferred then editReply env (.text errorMessage) c
  else followUp env (.ephemeral errorMessage) c

/-- The listener of `interactionCreate`. -/
def interactionCreate (env : Env) (i : Interaction) : Code :=
  if !i.isChatInputCommand then skip
  else tryCatch (switchCommand env i) (catchBlock env)

/-- The welcome-back notice of the passive listener. -/
def welcomeBack : Effect :=
  .messageReply "\uf8ff\xfc\xeb\xe3 Welcome back! Your AFK status has been removed."

/-- The AFK notice for a mentioned user whose stored reason is `reason`. -/
def afkNotice (user : User) (reason : String) : Effect :=
  .messageReply ("\uf8ff\xfc\xed\xa7 " ++ user.tag ++ " is AFK: " ++ reason)

/-- The listener of `messageCreate`: the storage after the message, and the
replies to the message in the order in which they are sent. -/
def messageCreate (message : Message) (st : Storage) : Storage × List Effect :=
  if message.author.bot then (st, [])
  else
    let r1 : Storage × List Effect :=
      if st.afkUsers.has message.author.id then
        ({ st with afkUsers := st.afkUsers.delete message.author.id }, [welcomeBack])
      else (st, [])
    (r1.1, r1.2 ++ message.mentions.filterMap fun user =>
      if r1.1.afkUsers.has user.id then
        (r1.1.afkUsers.get user.id).map fun afkData => afkNotice user afkData.reason
      else none)

/-! ## Events -/

/-- An inbound event: an interaction, with what its run obtains from outside,
or a chat message. -/
inductive Event where
  | interaction (env : Env) (i : Interaction)
  | message (m : Message)

/-- The result of one run of the dispatcher on the storage `st`. -/
def runInteraction (env : Env) (i : Interaction) (st : Storage) : Res :=
  interactionCreate env i (Ctx.start st)

/-- The storage after one event and the calls made while handling it. -/
def step (st : Storage) : Event → Storage × List Effect
  | .interaction env i => ((runInteraction env i st).ctx.storage, (runInteraction env i st).ctx.log)
  | .message m => messageCreate m st

/-- The storage after a sequence of events. -/
def run (st : Storage) (events : List Event) : Storage :=
  events.foldl (fun s e => (step s e).1) st

/-! ## Frame conditions and sample inputs -/

/-- The array of warnings held for a user: `storage.warnings.get(id) || []`. -/
def warningsOf (st : Storage) (id : String) : List WarningRecord :=
  (st.warnings.get id).getD []

/-- The code `a` relates the storage it starts from to the storage it ends in
by `R`, whether it completes or throws. -/
def Keeps (R : Storage → Storage → Prop) (a : Code) : Prop :=
  ∀ c, R c.storage (a c).ctx.storage

/-- The warnings of every user only grow at the end. -/
def WarningsExtend (st st2 : Storage) : Prop :=
  ∀ id, warningsOf st id <+: warningsOf st2 id

/-- A user of the platform, for the examples. -/
def sampleUser (id : String) : User :=
  ⟨id, id ++ "#0001", id, false, 0, fun _ _ => "https://cdn.example/avatar.png"⟩

/-- An environment in which every call goes through. -/
def sampleEnv : Env :=
  ⟨1700000000000, fun _ => 0, fun _ => false, false, false, fun _ => false, false, none,
   fun _ => true⟩

/-- An options bag with the user option `user` and the given string options. -/
def sampleOptions (user : Option User) (strings : List (String × String)) : Options :=
  ⟨fun k => if k = "user" then user else none, fun k => strings.lookup k, fun _ => none⟩

/-- A slash command `name` issued by `issuer`. -/
def sampleCommand (name : String) (issuer : User) (user : Option User)
    (strings : List (String × String)) : Interaction :=
  ⟨true, name, sampleOptions user strings, issuer, none, none⟩

/-- The event is the slash command `afk` issued by the user `id`. -/
def Event.isAfkBy (id : String) : Event → Bool
  | .interaction _ i => i.isChatInputCommand && i.commandName == "afk" && i.user.id == id
  | .message _ => false

/-- The event is a chat message whose author is the user `id` and is not a bot. -/
def Event.isMessageBy (id : String) : Event → Bool
  | .interaction _ _ => false
  | .message m => !m.author.bot && m.author.id == id

/-- One AFK notice for each user mentioned by the message who has an AFK record
in the storage, in the order of the mentions. -/
def afkNotices (m : Message) (st : Storage) : List Effect :=
  m.mentions.filterMap fun user => (st.afkUsers user.id).map fun r => afkNotice user r.reason

/-- The AFK table of the second storage is the one of the first. -/
def AfkUnchanged (st st2 : Storage) : Prop := st2.afkUsers = st.afkUsers

/-- In the specification's words, the line `<k>. <reason> - <@<moderator id>>`
of the warnings list. -/
def specLine (k : Nat) (reason moderator : String) : String :=
  toString k ++ ". " ++ reason ++ " - <@" ++ moderator ++ ">"

/-- The embed of the reply to `warnings` for a user tag and a description. -/
def warningsEmbed (tag description : String) : Embed :=
  ⟨some ("Warnings for " ++ tag), some description, none, none, some "#ffcc00", none, []⟩

/-- The title of the poll embed. -/
def pollTitle (question : Option String) : String := "\uf8ff\xfc\xec\xe4 " ++ jsStr question

/-- The description of the poll embed: the lines of the options, joined. -/
def pollDescription (options : String) : String :=
  "\n".intercalate ((pollOptions options).enum.map fun p => pollLine p.1 p.2)

/-- The embed of the poll. -/
def pollEmbed (question : Option String) (options : String) : Embed :=
  ⟨some (pollTitle question), some (pollDescription options), none, none, some "#5865F2",
    none, []⟩

/-- The names that have a case of their own in the `switch` of the dispatcher. -/
def caseNames : List String :=
  ["petpet", "kick", "ban", "warn", "warnings", "clear", "avatar", "userinfo", "serverinfo",
   "poll", "remind", "afk", "meme", "joke", "8ball", "help"]

/-- The custom-command table of the second storage is the one of the first. -/
def CustomUnchanged (st st2 : Storage) : Prop := st2.customCommands = st.customCommands

/-- The whole of the second storage is the first. -/
def StorageUnchanged (st st2 : Storage) : Prop := st2 = st

/-- The call is one of the four reply primitives of the interaction. -/
def Effect.isReplyPrimitive : Effect → Bool
  | .reply _ => true
  | .deferReply => true
  | .editReply _ => true
  | .followUp _ => true
  | _ => false

/-- The reply primitives that went through during a run, in order. -/
def replyTrace (log : List Effect) : List Effect := log.filter Effect.isReplyPrimitive

/-- In the specification's words, the path of the generic error message by
reply state: an edit of the deferred reply when a deferral was already sent,
otherwise a fresh ephemeral reply when nothing was replied yet, otherwise an
ephemeral follow-up. -/
def errorPath (replied deferred : Bool) : Effect :=
  if deferred then .editReply (.text errorMessage)
  else if !replied then .reply (.ephemeral errorMessage)
  else .followUp (.ephemeral errorMessage)

/-- The code that makes the call of a reply primitive named by an effect. -/
def issue (env : Env) : Effect → Code
  | .reply p => reply env p
  | .deferReply => deferReply env
  | .editReply p => editReply env p
  | .followUp p => followUp env p
  | _ => skip

/-- The run completed, and the reply primitives that went through are one
initial reply, or (when `followUpCase` holds) one initial reply and the error
follow-up, or one deferral followed by one edit. -/
def OneReply (followUpCase : Prop) (r : Res) : Prop :=
  r.isThrow = false ∧
  ((∃ p, replyTrace r.ctx.log = [.reply p]) ∨
   (followUpCase ∧
     ∃ p, replyTrace r.ctx.log = [.reply p, .followUp (.ephemeral errorMessage)]) ∨
   (∃ p, replyTrace r.ctx.log = [.deferReply, .editReply p]))

/-! ## Startup: the configuration check -/

/-- The object `config`: the three environment variables, `undefined` when
they are not set. -/
structure Config where
  token : Option String
  clientId : Option String
  guildId : Option String

/-- A line written to the console, by `console.error` or by `console.log`. -/
inductive ConsoleLine where
  | error (text : String)
  | log (text : String)
deriving DecidableEq

/-- How a startup function ends: the lines it wrote, and the exit code when it
ended the process (`none` when it returned). -/
structure Outcome where
  console : List ConsoleLine
  exitCode : Option Nat
deriving DecidableEq

/-- The test `!v` on an environment variable: `undefined` and the empty string
are falsy. -/
def isUnset (v : Option String) : Bool :=
  match v with
  | none => true
  | some s => s == ""

/-- The longest prefix of a list of characters that has at most `n` UTF-16 code
units. -/
def takeUnits : Nat → List Char → List Char
  | _, [] => []
  | n, c :: cs =>
    if (if c.toNat < 0x10000 then 1 else 2) ≤ n then
      c :: takeUnits (n - (if c.toNat < 0x10000 then 1 else 2)) cs
    else []

/-- The call `s.substring(0, n)`: the first `n` UTF-16 code units of `s`. (When
the cut falls inside a surrogate pair JavaScript keeps the lone first half,
which is not a character; here the prefix stops before it.) -/
def jsSubstring0 (s : String) (n : Nat) : String := String.mk (takeUnits n s.toList)

/-- The function `validateConfig` of `bot.js`. -/
def validateConfig (config : Config) : Outcome :=
  let missing : List String :=
    (if isUnset config.token then ["DISCORD_TOKEN"] else []) ++
    (if isUnset config.clientId then ["CLIENT_ID"] else [])
  if missing.length > 0 then
    { console :=
        [.error (crossMark ++ " Missing required environment variables:")] ++
        missing.map (fun env => .error ("   - " ++ env)) ++
        [.error "\nPlease set these environment variables and restart the bot."]
      exitCode := some 1 }
  else if jsLength (config.token.getD "") < 50 then
    { console := [.error (crossMark ++
        " Invalid DISCORD_TOKEN format. Please check your bot token.")]
      exitCode := some 1 }
  else
    { console :=
        [.log (checkMark ++ " Configuration validated successfully"),
         .log ("   - Token: " ++ jsSubstring0 (config.token.getD "") 10 ++ "..."),
         .log ("   - Client ID: " ++ jsStr config.clientId),
         .log ("   - Guild ID: " ++ jsOr config.guildId "Not set (global commands)")]
      exitCode := none }

/-! ## Lemmas on the duration parser -/

theorem isDigitChar_iff (c : Char) : isDigitChar c = true ↔ ('0' ≤ c ∧ c ≤ '9') := by
  simp only [isDigitChar, Char.isDigit, Bool.and_eq_true, decide_eq_true_eq, Char.le_def]
  constructor
  · rintro ⟨h1, h2⟩; exact ⟨h1, h2⟩
  · rintro ⟨h1, h2⟩; exact ⟨h1, h2⟩

theorem isUnitChar_iff (u : Char) :
    isUnitChar u = true ↔ (u = 's' ∨ u = 'm' ∨ u = 'h' ∨ u = 'd') := by
  simp [isUnitChar, or_assoc]

theorem unit_not_digit (u : Char) (h : isUnitChar u = true) : isDigitChar u = false := by
  rcases (isUnitChar_iff u).1 h with rfl | rfl | rfl | rfl <;> decide

theorem span_digits_append (ds : List Char) (u : Char)
    (hds : ∀ c ∈ ds, isDigitChar c = true) (hu : isDigitChar u = false) :
    (ds ++ [u]).span isDigitChar = (ds, [u]) := by
  induction ds with
  | nil => simp [List.span_eq_take_drop, hu]
  | cons d ds ih =>
    have hd : isDigitChar d = true := hds d (List.mem_cons_self _ _)
    have ih2 := ih (fun c hc => hds c (List.mem_cons_of_mem _ hc))
    rw [List.span_eq_take_drop] at ih2 ⊢
    simp only [Prod.mk.injEq] at ih2
    simp [hd, ih2.1, ih2.2]

theorem matchTime_eq_some_iff (s : String) (ds : List Char) (u : Char) :
    matchTime s = some (ds, u) ↔ FullMatch s ds u := by
  constructor
  · intro h
    unfold matchTime at h
    split at h
    · rename_i d ds1 u1 hspan
      split at h
      · rename_i hu
        simp only [Option.some.injEq, Prod.mk.injEq] at h
        obtain ⟨rfl, rfl⟩ := h
        rw [List.span_eq_take_drop] at hspan
        simp only [Prod.mk.injEq] at hspan
        refine ⟨?_, by simp, ?_, (isUnitChar_iff _).1 hu⟩
        · rw [← hspan.1, ← hspan.2, List.takeWhile_append_dropWhile]
        · intro c hc
          rw [← hspan.1] at hc
          exact (isDigitChar_iff c).1 (List.mem_takeWhile_imp hc)
      · exact absurd h (by simp)
    · exact absurd h (by simp)
  · rintro ⟨hs, hne, hds, hu⟩
    have hu2 : isUnitChar u = true := (isUnitChar_iff u).2 hu
    have hspan := span_digits_append ds u (fun c hc => (isDigitChar_iff c).2 (hds c hc))
      (unit_not_digit u hu2)
    unfold matchTime
    rw [hs, hspan]
    cases ds with
    | nil => exact absurd rfl hne
    | cons d ds => simp [hu2]

theorem matchTime_eq_none_iff (s : String) :
    matchTime s = none ↔ ¬ ∃ ds u, FullMatch s ds u := by
  constructor
  · rintro h ⟨ds, u, hm⟩
    rw [(matchTime_eq_some_iff s ds u).2 hm] at h
    exact absurd h (by simp)
  · intro h
    cases hm : matchTime s with
    | none => rfl
    | some p =>
      obtain ⟨ds, u⟩ := p
      exact absurd ⟨ds, u, (matchTime_eq_some_iff s ds u).1 hm⟩ h

theorem mathInt_append (ds : List Char) (c : Char) :
    mathInt (ds ++ [c]) = 10 * mathInt ds + digitValue c := by
  simp [mathInt, List.foldl_append]

theorem mathInt_eq_decimalNumber (ds : List Char) : mathInt ds = decimalNumber ds := by
  induction ds using List.reverseRecOn with
  | nil => simp [mathInt, decimalNumber]
  | append_singleton ds c ih =>
    rw [mathInt_append, ih]
    simp only [decimalNumber, List.reverse_append, List.reverse_cons, List.reverse_nil,
      List.nil_append, List.singleton_append, List.map_cons, Nat.ofDigits_cons, digitValue]
    have : '0'.toNat = 48 := by decide
    rw [this]; ring

/-- Below 2^53 every natural number is a double. -/
theorem toDouble_of_lt (n : Nat) (h : n < 2 ^ 53) : toDouble n = .finite n := by
  unfold toDouble
  rw [if_pos h]

theorem jsMul_exact (n k : Nat) (h : n * k < 2 ^ 53) :
    jsMul (.finite n) k = .finite (n * k) := by
  simp only [jsMul]
  exact toDouble_of_lt _ h

/-- On a match `parseTime` returns a number, never `null`. -/
theorem parseTime_isSome_of_match (s : String) (ds : List Char) (u : Char)
    (h : matchTime s = some (ds, u)) : (parseTime s).isSome = true := by
  have hu := ((matchTime_eq_some_iff s ds u).1 h).2.2.2
  unfold parseTime
  rw [h]
  rcases hu with rfl | rfl | rfl | rfl <;> simp

theorem two_pow_53 : (2 : Nat) ^ 53 = 9007199254740992 := by norm_num

theorem seconds_exact (n : Nat) (h : n * 1000 < 2 ^ 53) :
    jsMul (toDouble n) 1000 = .finite (n * 1000) := by
  have h0 : n < 2 ^ 53 := by rw [two_pow_53] at h ⊢; omega
  rw [toDouble_of_lt n h0, jsMul_exact n 1000 h]

theorem minutes_exact (n : Nat) (h : n * 60000 < 2 ^ 53) :
    jsMul (jsMul (toDouble n) 60) 1000 = .finite (n * 60000) := by
  have h0 : n < 2 ^ 53 := by rw [two_pow_53] at h ⊢; omega
  have h1 : n * 60 < 2 ^ 53 := by rw [two_pow_53] at h ⊢; omega
  have h2 : n * 60 * 1000 < 2 ^ 53 := by rw [two_pow_53] at h ⊢; omega
  rw [toDouble_of_lt n h0, jsMul_exact n 60 h1, jsMul_exact (n * 60) 1000 h2]
  have he : n * 60 * 1000 = n * 60000 := by omega
  rw [he]

theorem hours_exact (n : Nat) (h : n * 3600000 < 2 ^ 53) :
    jsMul (jsMul (jsMul (toDouble n) 60) 60) 1000 = .finite (n * 3600000) := by
  have h0 : n < 2 ^ 53 := by rw [two_pow_53] at h ⊢; omega
  have h1 : n * 60 < 2 ^ 53 := by rw [two_pow_53] at h ⊢; omega
  have h2 : n * 60 * 60 < 2 ^ 53 := by rw [two_pow_53] at h ⊢; omega
  have h3 : n * 60 * 60 * 1000 < 2 ^ 53 := by rw [two_pow_53] at h ⊢; omega
  rw [toDouble_of_lt n h0, jsMul_exact n 60 h1, jsMul_exact (n * 60) 60 h2,
    jsMul_exact (n * 60 * 60) 1000 h3]
  have he : n * 60 * 60 * 1000 = n * 3600000 := by omega
  rw [he]

theorem days_exact (n : Nat) (h : n * 86400000 < 2 ^ 53) :
    jsMul (jsMul (jsMul (jsMul (toDouble n) 24) 60) 60) 1000 = .finite (n * 86400000) := by
  have h0 : n < 2 ^ 53 := by rw [two_pow_53] at h ⊢; omega
  have h1 : n * 24 < 2 ^ 53 := by rw [two_pow_53] at h ⊢; omega
  have h2 : n * 24 * 60 < 2 ^ 53 := by rw [two_pow_53] at h ⊢; omega
  have h3 : n * 24 * 60 * 60 < 2 ^ 53 := by rw [two_pow_53] at h ⊢; omega
  have h4 : n * 24 * 60 * 60 * 1000 < 2 ^ 53 := by rw [two_pow_53] at h ⊢; omega
  rw [toDouble_of_lt n h0, jsMul_exact n 24 h1, jsMul_exact (n * 24) 60 h2,
    jsMul_exact (n * 24 * 60) 60 h3, jsMul_exact (n * 24 * 60 * 60) 1000 h4]
  have he : n * 24 * 60 * 60 * 1000 = n * 86400000 := by omega
  rw [he]

/-- On a match whose value in milliseconds is below 2^53 every product is exact. -/
theorem parseTime_of_match (s : String) (ds : List Char) (u : Char)
    (h : matchTime s = some (ds, u)) (hb : mathInt ds * unitFactor u < 2 ^ 53) :
    parseTime s = some (.finite (mathInt ds * unitFactor u)) := by
  have hu := ((matchTime_eq_some_iff s ds u).1 h).2.2.2
  unfold parseTime
  rw [h]
  rcases hu with rfl | rfl | rfl | rfl
  · have hf : unitFactor 's' = 1000 := by decide
    rw [hf] at hb ⊢
    simp [parseInt, seconds_exact _ hb]
  · have hf : unitFactor 'm' = 60000 := by decide
    rw [hf] at hb ⊢
    simp [parseInt, minutes_exact _ hb]
  · have hf : unitFactor 'h' = 3600000 := by decide
    rw [hf] at hb ⊢
    simp [parseInt, hours_exact _ hb]
  · have hf : unitFactor 'd' = 86400000 := by decide
    rw [hf] at hb ⊢
    simp [parseInt, days_exact _ hb]

theorem parseTime_eq_none_iff (s : String) : parseTime s = none ↔ matchTime s = none := by
  constructor
  · intro h
    cases hm : matchTime s with
    | none => rfl
    | some p =>
      obtain ⟨ds, u⟩ := p
      have h2 := parseTime_isSome_of_match s ds u hm
      rw [h] at h2
      exact absurd h2 (by simp)
  · intro h
    simp [parseTime, h]

/-! ## Frame lemmas: what a handler does to the storage -/

section Frame

variable {R : Storage → Storage → Prop}

theorem keeps_skip (hr : ∀ s, R s s) : Keeps R skip := fun c => hr c.storage

theorem keeps_raise (hr : ∀ s, R s s) : Keeps R raise := fun c => hr c.storage

theorem keeps_perform (hr : ∀ s, R s s) (fails : Bool) (e : Effect) :
    Keeps R (perform fails e) := by
  intro c
  unfold perform
  split <;> exact hr c.storage

theorem keeps_reply (hr : ∀ s, R s s) (env : Env) (p : Payload) : Keeps R (reply env p) := by
  intro c
  unfold reply
  split
  · exact hr c.storage
  · split <;> exact hr c.storage

theorem keeps_deferReply (hr : ∀ s, R s s) (env : Env) : Keeps R (deferReply env) := by
  intro c
  unfold deferReply
  split
  · exact hr c.storage
  · split <;> exact hr c.storage

theorem keeps_editReply (hr : ∀ s, R s s) (env : Env) (p : Payload) :
    Keeps R (editReply env p) := by
  intro c
  unfold editReply
  split
  · exact hr c.storage
  · split <;> exact hr c.storage

theorem keeps_followUp (hr : ∀ s, R s s) (env : Env) (p : Payload) :
    Keeps R (followUp env p) := by
  intro c
  unfold followUp
  split
  · exact hr c.storage
  · split <;> exact hr c.storage

theorem keeps_updateStorage (f : Storage → Storage) (hf : ∀ s, R s (f s)) :
    Keeps R (updateStorage f) := fun c => hf c.storage

theorem keeps_andThen (ht : ∀ s1 s2 s3, R s1 s2 → R s2 s3 → R s1 s3) {a b : Code}
    (ha : Keeps R a) (hb : Keeps R b) : Keeps R (andThen a b) := by
  intro c
  have h1 := ha c
  unfold andThen
  cases hac : a c with
  | ok c2 =>
    rw [hac] at h1
    exact ht _ _ _ h1 (hb c2)
  | threw c2 =>
    rw [hac] at h1
    exact h1

theorem keeps_tryCatch (ht : ∀ s1 s2 s3, R s1 s2 → R s2 s3 → R s1 s3) {a h : Code}
    (ha : Keeps R a) (hh : Keeps R h) : Keeps R (tryCatch a h) := by
  intro c
  have h1 := ha c
  unfold tryCatch
  cases hac : a c with
  | ok c2 =>
    rw [hac] at h1
    exact h1
  | threw c2 =>
    rw [hac] at h1
    exact ht _ _ _ h1 (hh c2)

theorem keeps_withEmbed (hr : ∀ s, R s s) (env : Env) (primitive : Payload → Code)
    (e : Embed) (hp : ∀ p, Keeps R (primitive p)) : Keeps R (withEmbed env primitive e) := by
  unfold withEmbed
  split
  · exact hp _
  · exact keeps_raise hr

theorem keeps_replyEmbed (hr : ∀ s, R s s) (env : Env) (e : Embed) :
    Keeps R (withEmbed env (reply env) e) :=
  keeps_withEmbed hr env _ e (fun p => keeps_reply hr env p)

theorem keeps_editReplyEmbed (hr : ∀ s, R s s) (env : Env) (e : Embed) :
    Keeps R (withEmbed env (editReply env) e) :=
  keeps_withEmbed hr env _ e (fun p => keeps_editReply hr env p)

theorem keeps_reactLoop (hr : ∀ s, R s s) (ht : ∀ s1 s2 s3, R s1 s2 → R s2 s3 → R s1 s3)
    (env : Env) (i k : Nat) : Keeps R (reactLoop env i k) := by
  induction k generalizing i with
  | zero => exact keeps_skip hr
  | succ k ih => exact keeps_andThen ht (keeps_perform hr _ _) (ih (i + 1))

theorem keeps_petpetCase (hr : ∀ s, R s s) (ht : ∀ s1 s2 s3, R s1 s2 → R s2 s3 → R s1 s3)
    (env : Env) (i : Interaction) : Keeps R (petpetCase env i) := by
  unfold petpetCase
  apply keeps_andThen ht (keeps_deferReply hr env)
  dsimp only
  split
  · exact keeps_editReplyEmbed hr env _
  · exact keeps_editReply hr env _

theorem keeps_kickCase (hr : ∀ s, R s s) (ht : ∀ s1 s2 s3, R s1 s2 → R s2 s3 → R s1 s3)
    (env : Env) (i : Interaction) : Keeps R (kickCase env i) := by
  unfold kickCase
  apply keeps_tryCatch ht _ (keeps_reply hr env _)
  split
  · split
    · exact keeps_raise hr
    · split
      · exact keeps_andThen ht (keeps_perform hr _ _) (keeps_reply hr env _)
      · exact keeps_reply hr env _
  · exact keeps_raise hr

theorem keeps_banCase (hr : ∀ s, R s s) (ht : ∀ s1 s2 s3, R s1 s2 → R s2 s3 → R s1 s3)
    (env : Env) (i : Interaction) : Keeps R (banCase env i) := by
  unfold banCase
  apply keeps_tryCatch ht _ (keeps_reply hr env _)
  split
  · split
    · exact keeps_raise hr
    · split
      · exact keeps_andThen ht (keeps_perform hr _ _) (keeps_reply hr env _)
      · exact keeps_reply hr env _
  · exact keeps_raise hr

theorem keeps_warningsCase (hr : ∀ s, R s s) (env : Env) (i : Interaction) :
    Keeps R (warningsCase env i) := by
  intro c
  unfold warningsCase
  dsimp only
  split
  · exact hr c.storage
  · exact keeps_replyEmbed hr env _ c

theorem keeps_clearCase (hr : ∀ s, R s s) (ht : ∀ s1 s2 s3, R s1 s2 → R s2 s3 → R s1 s3)
    (env : Env) (i : Interaction) : Keeps R (clearCase env i) := by
  unfold clearCase
  apply keeps_tryCatch ht _ (keeps_reply hr env _)
  split
  · exact keeps_raise hr
  · split
    · exact keeps_raise hr
    · exact keeps_andThen ht (keeps_perform hr _ _) (keeps_reply hr env _)

theorem keeps_userinfoCase (hr : ∀ s, R s s) (env : Env) (i : Interaction) :
    Keeps R (userinfoCase env i) := by
  unfold userinfoCase
  dsimp only
  split
  · exact keeps_raise hr
  · split
    · exact keeps_raise hr
    · exact keeps_replyEmbed hr env _

theorem keeps_serverinfoCase (hr : ∀ s, R s s) (env : Env) (i : Interaction) :
    Keeps R (serverinfoCase env i) := by
  unfold serverinfoCase
  split
  · exact keeps_raise hr
  · exact keeps_replyEmbed hr env _

theorem keeps_pollCase (hr : ∀ s, R s s) (ht : ∀ s1 s2 s3, R s1 s2 → R s2 s3 → R s1 s3)
    (env : Env) (i : Interaction) : Keeps R (pollCase env i) := by
  unfold pollCase
  dsimp only
  split
  · exact keeps_raise hr
  · split
    · exact keeps_reply hr env _
    · exact keeps_andThen ht (keeps_replyEmbed hr env _) (keeps_reactLoop hr ht env _ _)

theorem keeps_remindCase (hr : ∀ s, R s s) (ht : ∀ s1 s2 s3, R s1 s2 → R s2 s3 → R s1 s3)
    (env : Env) (i : Interaction) : Keeps R (remindCase env i) := by
  unfold remindCase
  dsimp only
  split
  · exact keeps_raise hr
  · split
    · exact keeps_reply hr env _
    · exact keeps_andThen ht (keeps_reply hr env _) (keeps_perform hr _ _)

theorem keeps_memeCase (hr : ∀ s, R s s) (ht : ∀ s1 s2 s3, R s1 s2 → R s2 s3 → R s1 s3)
    (env : Env) (i : Interaction) : Keeps R (memeCase env i) := by
  unfold memeCase
  apply keeps_andThen ht (keeps_deferReply hr env)
  apply keeps_tryCatch ht _ (keeps_editReply hr env _)
  split
  · exact keeps_raise hr
  · exact keeps_editReplyEmbed hr env _

theorem keeps_defaultCase (hr : ∀ s, R s s) (env : Env) (i : Interaction) :
    Keeps R (defaultCase env i) := by
  intro c
  unfold defaultCase
  split <;> exact keeps_reply hr env _ c

theorem keeps_catchBlock (hr : ∀ s, R s s) (env : Env) : Keeps R (catchBlock env) := by
  intro c
  unfold catchBlock
  split
  · exact keeps_reply hr env _ c
  · split
    · exact keeps_editReply hr env _ c
    · exact keeps_followUp hr env _ c

/-- Only the cases `warn` and `afk` write the storage: a reflexive and
transitive relation kept by these two is kept by the whole `switch`. -/
theorem keeps_switchCommand (hr : ∀ s, R s s) (ht : ∀ s1 s2 s3, R s1 s2 → R s2 s3 → R s1 s3)
    (env : Env) (i : Interaction)
    (hwarn : i.commandName = "warn" → Keeps R (warnCase env i))
    (hafk : i.commandName = "afk" → Keeps R (afkCase env i)) :
    Keeps R (switchCommand env i) := by
  unfold switchCommand
  by_cases h : i.commandName = "petpet"
  · rw [if_pos h]; exact keeps_petpetCase hr ht env i
  rw [if_neg h]; clear h
  by_cases h : i.commandName = "kick"
  · rw [if_pos h]; exact keeps_kickCase hr ht env i
  rw [if_neg h]; clear h
  by_cases h : i.commandName = "ban"
  · rw [if_pos h]; exact keeps_banCase hr ht env i
  rw [if_neg h]; clear h
  by_cases h : i.commandName = "warn"
  · rw [if_pos h]; exact hwarn h
  rw [if_neg h]; clear h
  by_cases h : i.commandName = "warnings"
  · rw [if_pos h]; exact keeps_warningsCase hr env i
  rw [if_neg h]; clear h
  by_cases h : i.commandName = "clear"
  · rw [if_pos h]; exact keeps_clearCase hr ht env i
  rw [if_neg h]; clear h
  by_cases h : i.commandName = "avatar"
  · rw [if_pos h]; exact keeps_replyEmbed hr env _
  rw [if_neg h]; clear h
  by_cases h : i.commandName = "userinfo"
  · rw [if_pos h]; exact keeps_userinfoCase hr env i
  rw [if_neg h]; clear h
  by_cases h : i.commandName = "serverinfo"
  · rw [if_pos h]; exact keeps_serverinfoCase hr env i
  rw [if_neg h]; clear h
  by_cases h : i.commandName = "poll"
  · rw [if_pos h]; exact keeps_pollCase hr ht env i
  rw [if_neg h]; clear h
  by_cases h : i.commandName = "remind"
  · rw [if_pos h]; exact keeps_remindCase hr ht env i
  rw [if_neg h]; clear h
  by_cases h : i.commandName = "afk"
  · rw [if_pos h]; exact hafk h
  rw [if_neg h]; clear h
  by_cases h : i.commandName = "meme"
  · rw [if_pos h]; exact keeps_memeCase hr ht env i
  rw [if_neg h]; clear h
  by_cases h : i.commandName = "joke"
  · rw [if_pos h]; exact keeps_reply hr env _
  rw [if_neg h]; clear h
  by_cases h : i.commandName = "8ball"
  · rw [if_pos h]; exact keeps_reply hr env _
  rw [if_neg h]; clear h
  by_cases h : i.commandName = "help"
  · rw [if_pos h]; exact keeps_replyEmbed hr env _
  rw [if_neg h]; clear h
  exact keeps_defaultCase hr env i

theorem keeps_interactionCreate (hr : ∀ s, R s s)
    (ht : ∀ s1 s2 s3, R s1 s2 → R s2 s3 → R s1 s3) (env : Env) (i : Interaction)
    (hwarn : i.commandName = "warn" → Keeps R (warnCase env i))
    (hafk : i.commandName = "afk" → Keeps R (afkCase env i)) :
    Keeps R (interactionCreate env i) := by
  unfold interactionCreate
  split
  · exact keeps_skip hr
  · exact keeps_tryCatch ht (keeps_switchCommand hr ht env i hwarn hafk) (keeps_catchBlock hr env)

end Frame

/-! ## The reminder handler -/

theorem switchCommand_remind (env : Env) (i : Interaction) (h : i.commandName = "remind") :
    switchCommand env i = remindCase env i := by
  simp [switchCommand, h]

/-- The text of the reply to a rejected duration. -/
theorem invalidTime_text :
    crossMark ++ " Invalid time format. Use format like: 5m, 1h, 2d" =
      "\u201a\xf9\xe5 Invalid time format. Use format like: 5m, 1h, 2d" := by
  decide

/-- The run of `remind` on a duration that `parseTime` rejects or maps to 0. -/
theorem remind_falsy (env : Env) (i : Interaction) (st : Storage) (timeStr : String)
    (hcmd : i.isChatInputCommand = true) (hname : i.commandName = "remind")
    (htime : i.options.getString "time" = some timeStr)
    (hfalsy : jsNot (parseTime timeStr) = true) :
    runInteraction env i st =
      if env.replyFails 0 then
        (if env.replyFails 1 then .threw ⟨st, false, false, 2, []⟩
         else .ok ⟨st, true, false, 2, [.reply (.ephemeral errorMessage)]⟩)
      else .ok ⟨st, true, false, 1, [.reply (.text
        (crossMark ++ " Invalid time format. Use format like: 5m, 1h, 2d"))]⟩ := by
  simp only [runInteraction, interactionCreate, hcmd, switchCommand_remind env i hname,
    remindCase, htime, hfalsy, tryCatch, reply, catchBlock, Ctx.start]
  cases h0 : env.replyFails 0 <;> cases h1 : env.replyFails 1 <;>
    simp [tryCatch, reply, catchBlock, h0, h1]

/-- The run of `remind` on a duration that `parseTime` maps to a number other
than 0, when the reply goes through: the confirmation, then one `setTimeout`
whose delay is that number and whose text contains the message. -/
theorem remind_truthy (env : Env) (i : Interaction) (st : Storage) (timeStr : String)
    (ms : JsNumber) (hcmd : i.isChatInputCommand = true) (hname : i.commandName = "remind")
    (htime : i.options.getString "time" = some timeStr)
    (hms : parseTime timeStr = some ms) (hpos : ms ≠ 0) (hreply : env.replyFails 0 = false) :
    runInteraction env i st =
      .ok ⟨st, true, false, 1,
        [.reply (.text ("\u201a\xe8\u221e Reminder set for " ++ timeStr ++ "!")),
         .setTimeout ("\uf8ff\xfc\xee\xee Reminder: " ++ jsStr (i.options.getString "message"))
           ms]⟩ := by
  have hnot : jsNot (some ms) = false := by
    cases ms with
    | finite n =>
      have hn : n ≠ 0 := fun h0 => hpos (by rw [h0]; rfl)
      simp [jsNot, hn]
    | infinity => rfl
  simp [runInteraction, interactionCreate, hcmd, switchCommand_remind env i hname,
    remindCase, htime, hnot, tryCatch, reply, catchBlock, Ctx.start, andThen, perform, hreply,
    hms]

/-! ## The warnings table -/

theorem warningsExtend_refl (st : Storage) : WarningsExtend st st :=
  fun _ => List.prefix_refl _

theorem warningsExtend_trans (s1 s2 s3 : Storage) (h12 : WarningsExtend s1 s2)
    (h23 : WarningsExtend s2 s3) : WarningsExtend s1 s3 :=
  fun id => (h12 id).trans (h23 id)

theorem warningsOf_pushWarning (id : String) (w : WarningRecord) (st : Storage)
    (id2 : String) :
    warningsOf (pushWarning id w st) id2 =
      if id2 = id then warningsOf st id ++ [w] else warningsOf st id2 := by
  unfold pushWarning warningsOf JsMap.has JsMap.get JsMap.set
  cases h : st.warnings id <;> by_cases h2 : id2 = id <;> simp [h, h2]

theorem pushWarning_afkUsers (id : String) (w : WarningRecord) (st : Storage) :
    (pushWarning id w st).afkUsers = st.afkUsers := by
  unfold pushWarning
  dsimp only
  split <;> rfl

theorem pushWarning_customCommands (id : String) (w : WarningRecord) (st : Storage) :
    (pushWarning id w st).customCommands = st.customCommands := by
  unfold pushWarning
  dsimp only
  split <;> rfl

theorem pushWarning_warnings_other (id : String) (w : WarningRecord) (st : Storage)
    (id2 : String) (h : id2 ≠ id) :
    (pushWarning id w st).warnings id2 = st.warnings id2 := by
  unfold pushWarning JsMap.has JsMap.get JsMap.set
  cases h1 : st.warnings id <;> simp [h1, h]

theorem warningsExtend_pushWarning (id : String) (w : WarningRecord) (st : Storage) :
    WarningsExtend st (pushWarning id w st) := by
  intro id2
  rw [warningsOf_pushWarning]
  split
  · rename_i h
    rw [h]
    exact List.prefix_append _ _
  · exact List.prefix_refl _

theorem keeps_warnCase_extend (env : Env) (i : Interaction) :
    Keeps WarningsExtend (warnCase env i) := by
  unfold warnCase
  dsimp only
  split
  · exact keeps_raise warningsExtend_refl
  · exact keeps_andThen warningsExtend_trans
      (keeps_updateStorage _ (fun st => warningsExtend_pushWarning _ _ st))
      (keeps_reply warningsExtend_refl env _)

theorem keeps_afkCase_extend (env : Env) (i : Interaction) :
    Keeps WarningsExtend (afkCase env i) := by
  unfold afkCase
  dsimp only
  exact keeps_andThen warningsExtend_trans
    (keeps_updateStorage _ (fun st => fun _ => List.prefix_refl _))
    (keeps_reply warningsExtend_refl env _)

theorem messageCreate_warnings (m : Message) (st : Storage) :
    (messageCreate m st).1.warnings = st.warnings := by
  unfold messageCreate
  split
  · rfl
  · dsimp only
    split <;> rfl

theorem messageCreate_customCommands (m : Message) (st : Storage) :
    (messageCreate m st).1.customCommands = st.customCommands := by
  unfold messageCreate
  split
  · rfl
  · dsimp only
    split <;> rfl

theorem switchCommand_warn (env : Env) (i : Interaction) (h : i.commandName = "warn") :
    switchCommand env i = warnCase env i := by
  simp [switchCommand, h]

theorem switchCommand_warnings (env : Env) (i : Interaction)
    (h : i.commandName = "warnings") : switchCommand env i = warningsCase env i := by
  simp [switchCommand, h]

/-- The storage after a `warn` command, whether or not its reply goes through. -/
theorem warn_storage (env : Env) (i : Interaction) (st : Storage) (target : User)
    (hcmd : i.isChatInputCommand = true) (hname : i.commandName = "warn")
    (huser : i.options.getUser "user" = some target) :
    (runInteraction env i st).ctx.storage =
      pushWarning target.id ⟨i.options.getString "reason", i.user.id, env.now⟩ st := by
  simp only [runInteraction, interactionCreate, hcmd, switchCommand_warn env i hname,
    warnCase, huser, Ctx.start]
  cases h0 : env.replyFails 0 <;> cases h1 : env.replyFails 1 <;>
    simp [tryCatch, andThen, updateStorage, reply, catchBlock, h0, h1, Res.ctx]

theorem jsLength_append (a b : String) : jsLength (a ++ b) = jsLength a + jsLength b := by
  simp [jsLength, String.toList, String.data_append]

theorem jsLength_replicate (n : Nat) (c : Char) (hc : c.toNat < 0x10000) :
    jsLength (String.mk (List.replicate n c)) = n := by
  induction n with
  | zero => rfl
  | succ n ih =>
    simp only [jsLength, String.toList, List.replicate_succ, List.map_cons, List.sum_cons,
      hc, if_true] at ih ⊢
    omega

theorem intercalate_go_length (sep acc : String) (l : List String) :
    jsLength acc ≤ jsLength (String.intercalate.go acc sep l) := by
  induction l generalizing acc with
  | nil => simp [String.intercalate.go]
  | cons a l ih =>
    simp only [String.intercalate.go]
    refine Nat.le_trans ?_ (ih _)
    rw [jsLength_append, jsLength_append]
    omega

theorem intercalate_length (sep a : String) (l : List String) :
    jsLength a ≤ jsLength (sep.intercalate (a :: l)) := by
  simp only [String.intercalate]
  exact intercalate_go_length sep a l

/-- The description of the warnings embed is never empty. -/
theorem warningsDescription_nonempty (ws : List WarningRecord) :
    1 ≤ jsLength (warningsDescription ws) := by
  unfold warningsDescription
  cases ws with
  | nil => decide
  | cons w ws =>
    simp only [List.length_cons, Nat.add_one_ne_zero, if_false, List.enum_cons, List.map_cons]
    refine Nat.le_trans ?_ (intercalate_length _ _ _)
    simp only [warningLine, jsLength_append]
    have h2 : jsLength ". " = 2 := by decide
    omega

theorem warningsTitle_nonempty (tag : String) : 1 ≤ jsLength ("Warnings for " ++ tag) := by
  rw [jsLength_append]
  have h : jsLength "Warnings for " = 13 := by decide
  omega

/-- The embed of the `warnings` reply for a user tag and a list of warnings. -/
theorem warningsEmbed_valid (acceptsUrl : String → Bool) (tag : String)
    (ws : List WarningRecord) :
    Embed.valid acceptsUrl ⟨some ("Warnings for " ++ tag), some (warningsDescription ws),
      none, none, some "#ffcc00", none, []⟩ =
      (decide (jsLength ("Warnings for " ++ tag) ≤ 256) &&
       decide (jsLength (warningsDescription ws) ≤ 4096)) := by
  simp [Embed.valid, lengthWithin, warningsDescription_nonempty, warningsTitle_nonempty]

/-- The run of a `warnings` command whose reply goes through: the list, or the
generic error message when the embed builder rejects the title or the
description. -/
theorem warnings_run (env : Env) (i : Interaction) (st : Storage) (target : User)
    (hcmd : i.isChatInputCommand = true) (hname : i.commandName = "warnings")
    (huser : i.options.getUser "user" = some target) (hreply : env.replyFails 0 = false) :
    runInteraction env i st =
      .ok ⟨st, true, false, 1, [.reply
        (if jsLength ("Warnings for " ++ target.tag) ≤ 256 ∧
            jsLength (warningsDescription (warningsOf st target.id)) ≤ 4096 then
          .embeds ⟨some ("Warnings for " ++ target.tag),
            some (warningsDescription (warningsOf st target.id)),
            none, none, some "#ffcc00", none, []⟩
        else .ephemeral errorMessage)]⟩ := by
  have hv := warningsEmbed_valid env.acceptsUrl target.tag (warningsOf st target.id)
  simp only [runInteraction, interactionCreate, hcmd, switchCommand_warnings env i hname,
    warningsCase, huser, Ctx.start, withEmbed, Embed.new]
  simp only [warningsOf, JsMap.get] at hv ⊢
  by_cases hok : jsLength ("Warnings for " ++ target.tag) ≤ 256 ∧
      jsLength (warningsDescription ((st.warnings target.id).getD [])) ≤ 4096
  · have hv2 := hv
    simp only [hok.1, hok.2, decide_True, Bool.and_self] at hv2
    simp [warningsCase, huser, withEmbed, Embed.new, JsMap.get, tryCatch, reply, hreply, hv2,
      hok]
  · have hv2 := hv
    have hd : (decide (jsLength ("Warnings for " ++ target.tag) ≤ 256) &&
        decide (jsLength (warningsDescription ((st.warnings target.id).getD [])) ≤ 4096)) =
        false := by
      simpa using hok
    rw [hd] at hv2
    simp [warningsCase, huser, withEmbed, Embed.new, JsMap.get, tryCatch, reply, hreply, hv2,
      hok, raise, catchBlock]

theorem intercalate_go_append (sep acc x : String) (l : List String) :
    String.intercalate.go acc sep (l ++ [x]) = String.intercalate.go acc sep l ++ sep ++ x := by
  induction l generalizing acc with
  | nil => simp [String.intercalate.go]
  | cons a l ih => simp [String.intercalate.go, ih]

theorem intercalate_append_singleton (sep x : String) (l : List String) (h : l ≠ []) :
    sep.intercalate (l ++ [x]) = sep.intercalate l ++ sep ++ x := by
  cases l with
  | nil => exact absurd rfl h
  | cons a l => simp [String.intercalate, intercalate_go_append]

theorem warningsDescription_append (ws : List WarningRecord) (w : WarningRecord) :
    warningsDescription (ws ++ [w]) =
      if ws = [] then warningLine 0 w
      else warningsDescription ws ++ "\n" ++ warningLine ws.length w := by
  cases ws with
  | nil => simp [warningsDescription, String.intercalate, String.intercalate.go, List.enum]
  | cons a l =>
    have hne : ((a :: l).enum.map fun p => warningLine p.1 p.2) ≠ [] := by
      simp [List.enum]
    simp only [warningsDescription, List.enum_append, List.enumFrom_singleton, List.map_append,
      List.map_cons, List.map_nil, intercalate_append_singleton _ _ _ hne]
    simp

/-! ## Claims on the duration parser, the reminder and the warnings -/

/-- C1 as stated fails: `9007199254740993s` is, in full, sixteen digits and the
unit `s`, but `parseInt` rounds the value (2^53 + 1) to the double 2^53, and
`parseTime` returns 9007199254740992000, which is not the value times 1000. -/
theorem parseTime_rounds_above_2_pow_53 :
    FullMatch "9007199254740993s" "9007199254740993".toList 's' ∧
    decimalNumber "9007199254740993".toList = 9007199254740993 ∧
    parseTime "9007199254740993s" = some 9007199254740992000 ∧
    parseTime "9007199254740993s" ≠ some (.finite (9007199254740993 * 1000)) := by
  refine ⟨⟨rfl, by decide, ?_, by simp⟩, by decide, by decide, by decide⟩
  intro c hc
  rw [← isDigitChar_iff]
  revert c
  decide

/-- C1, amended: `parseTime s` is a number exactly when `s` is, in full, one or
more decimal digits followed by one of `s`, `m`, `h`, `d`, and `null` for every
other string; on a match whose value times the factor of the unit (1000, 60000,
3600000, 86400000) is below 2^53 the number is exactly that product. -/
theorem parseTime_spec (s : String) :
    ((parseTime s).isSome = true ↔ ∃ ds u, FullMatch s ds u) ∧
    (∀ ds u, FullMatch s ds u → decimalNumber ds * unitFactor u < 2 ^ 53 →
      parseTime s = some (.finite (decimalNumber ds * unitFactor u))) ∧
    ((¬ ∃ ds u, FullMatch s ds u) → parseTime s = none) := by
  refine ⟨?_, ?_, ?_⟩
  · rw [← not_iff_not, ← matchTime_eq_none_iff, ← parseTime_eq_none_iff]
    cases parseTime s <;> simp
  · intro ds u hm hb
    rw [← mathInt_eq_decimalNumber] at hb ⊢
    exact parseTime_of_match s ds u ((matchTime_eq_some_iff s ds u).2 hm) hb
  · intro h
    exact (parseTime_eq_none_iff s).2 ((matchTime_eq_none_iff s).2 h)

/-- C1, amended, at concrete inputs: `"5m"` is five minutes, `"5x"` and `"m"`
give `null`. -/
theorem parseTime_spec_witness :
    parseTime "5m" = some 300000 ∧ parseTime "5x" = none ∧ parseTime "m" = none := by
  have h5 : FullMatch "5m" ['5'] 'm' := by
    refine ⟨rfl, by simp, ?_, by simp⟩
    intro c hc
    simp only [List.mem_singleton] at hc
    subst hc
    decide
  refine ⟨?_, ?_, ?_⟩
  · rw [(parseTime_spec "5m").2.1 ['5'] 'm' h5 (by decide)]; decide
  · apply (parseTime_spec "5x").2.2
    rw [← matchTime_eq_none_iff]; decide
  · apply (parseTime_spec "m").2.2
    rw [← matchTime_eq_none_iff]; decide

/-- C2: the duration `0s` is, in full, a digit followed by the unit `s`, and
`parseTime` maps it to the number 0; the remind handler then takes the
rejection path: its only call is the reply `Invalid time format`, and no
follow-up is scheduled. -/
theorem remind_zero_seconds_rejected :
    FullMatch "0s" ['0'] 's' ∧ parseTime "0s" = some 0 ∧
    (runInteraction sampleEnv
      (sampleCommand "remind" (sampleUser "1") none [("time", "0s"), ("message", "stretch")])
      Storage.empty).ctx.log =
      [.reply (.text "\u201a\xf9\xe5 Invalid time format. Use format like: 5m, 1h, 2d")] := by
  refine ⟨⟨rfl, by simp, ?_, by simp⟩, by decide, by decide⟩
  intro c hc
  simp only [List.mem_singleton] at hc
  subst hc
  decide

/-- C3: on a time string that is not, in full, digits followed by one of `s`,
`m`, `h`, `d`, the remind handler leaves the storage as it was, schedules no
delayed action and sends no follow-up; when its reply goes through, the run
consists of exactly that one reply, the invalid-time-format message. -/
theorem remind_invalid_noop (env : Env) (i : Interaction) (st : Storage) (timeStr : String)
    (hcmd : i.isChatInputCommand = true) (hname : i.commandName = "remind")
    (htime : i.options.getString "time" = some timeStr)
    (hno : ¬ ∃ ds u, FullMatch timeStr ds u) :
    (runInteraction env i st).ctx.storage = st ∧
    (∀ e ∈ (runInteraction env i st).ctx.log,
      (∀ text delay, e ≠ .setTimeout text delay) ∧ ∀ p, e ≠ .followUp p) ∧
    (env.replyFails 0 = false →
      runInteraction env i st = .ok ⟨st, true, false, 1,
        [.reply (.text "\u201a\xf9\xe5 Invalid time format. Use format like: 5m, 1h, 2d")]⟩) := by
  have hnone : parseTime timeStr = none :=
    (parseTime_eq_none_iff timeStr).2 ((matchTime_eq_none_iff timeStr).2 hno)
  have hrun := remind_falsy env i st timeStr hcmd hname htime (by rw [hnone]; rfl)
  rw [hrun, invalidTime_text]
  cases h0 : env.replyFails 0 <;> cases h1 : env.replyFails 1 <;> simp [Res.ctx]

/-- C3 at a concrete input: `remind(time="5x", message="stretch")`. -/
theorem remind_invalid_noop_witness :
    (runInteraction sampleEnv
      (sampleCommand "remind" (sampleUser "1") none [("time", "5x"), ("message", "stretch")])
      Storage.empty).ctx.log =
      [.reply (.text "\u201a\xf9\xe5 Invalid time format. Use format like: 5m, 1h, 2d")] := by
  have h := (remind_invalid_noop sampleEnv
    (sampleCommand "remind" (sampleUser "1") none [("time", "5x"), ("message", "stretch")])
    Storage.empty "5x" rfl rfl rfl
    (by rw [← matchTime_eq_none_iff]; decide)).2.2 rfl
  rw [h]
  rfl

/-- C4: whatever the event (any slash command with any options, under any
outcome of the platform calls, or any chat message), the warnings held for a
user after the event start with the warnings held before it. -/
theorem warnings_monotonic (st : Storage) (e : Event) (id : String) :
    warningsOf st id <+: warningsOf (step st e).1 id := by
  cases e with
  | interaction env i =>
    exact keeps_interactionCreate warningsExtend_refl warningsExtend_trans env i
      (fun _ => keeps_warnCase_extend env i) (fun _ => keeps_afkCase_extend env i)
      (Ctx.start st) id
  | message m =>
    simp only [step, warningsOf, messageCreate_warnings]
    exact List.prefix_refl _

/-- The `warnings` command leaves the whole storage as it was, whatever the
outcome of the platform calls. -/
theorem other_command_storage_of_warnings (env : Env) (i : Interaction) (st : Storage)
    (hname : i.commandName = "warnings") :
    (runInteraction env i st).ctx.storage = st :=
  keeps_interactionCreate (R := fun s1 s2 => s2 = s1) (fun _ => rfl)
    (fun _ _ _ h12 h23 => h23.trans h12) env i
    (fun hw => absurd (hname.symm.trans hw) (by decide))
    (fun ha => absurd (hname.symm.trans ha) (by decide)) (Ctx.start st)

/-- C5 as stated fails: after a first `warn(user=U, reason=r)` whose reason
is 4097 letters long, the description of the warnings list exceeds the 4096
code units that the embed builder accepts, and `warnings(user=U)` replies with
the generic error message instead of the list. -/
theorem warn_then_warnings_long_reason :
    (step (step Storage.empty (.interaction sampleEnv
        (sampleCommand "warn" (sampleUser "7") (some (sampleUser "42"))
          [("reason", String.mk (List.replicate 4097 'a'))]))).1
      (.interaction sampleEnv
        (sampleCommand "warnings" (sampleUser "7") (some (sampleUser "42")) []))).2 =
      [.reply (.ephemeral "\u201a\xf9\xe5 An error occurred while executing this command.")] := by
  have hst : (step Storage.empty (.interaction sampleEnv
      (sampleCommand "warn" (sampleUser "7") (some (sampleUser "42"))
        [("reason", String.mk (List.replicate 4097 'a'))]))).1 =
      pushWarning "42" ⟨some (String.mk (List.replicate 4097 'a')), "7", sampleEnv.now⟩
        Storage.empty :=
    warn_storage sampleEnv _ Storage.empty (sampleUser "42") rfl rfl rfl
  have hws : warningsOf (pushWarning "42"
      ⟨some (String.mk (List.replicate 4097 'a')), "7", sampleEnv.now⟩ Storage.empty)
      (sampleUser "42").id =
      [⟨some (String.mk (List.replicate 4097 'a')), "7", sampleEnv.now⟩] := by
    rw [warningsOf_pushWarning]
    rfl
  have hlong : ¬ (jsLength ("Warnings for " ++ (sampleUser "42").tag) ≤ 256 ∧
      jsLength (warningsDescription [⟨some (String.mk (List.replicate 4097 'a')), "7",
        sampleEnv.now⟩]) ≤ 4096) := by
    intro h
    have h2 := h.2
    simp only [warningsDescription, List.length_singleton, Nat.one_ne_zero, if_false,
      List.enum_cons, List.enumFrom_nil, List.map_cons, List.map_nil, String.intercalate,
      String.intercalate.go, warningLine, jsStr, Option.getD_some, jsLength_append,
      jsLength_replicate 4097 'a' (by decide)] at h2
    omega
  have hstep : ∀ st1 : Storage, (step st1 (.interaction sampleEnv
      (sampleCommand "warnings" (sampleUser "7") (some (sampleUser "42")) []))).2 =
      (runInteraction sampleEnv
        (sampleCommand "warnings" (sampleUser "7") (some (sampleUser "42")) []) st1).ctx.log :=
    fun _ => rfl
  rw [hst, hstep, warnings_run sampleEnv _ _ (sampleUser "42") rfl rfl rfl rfl, hws,
    if_neg hlong]
  decide

/-- C5, amended: after `warn(user=U, reason=r)` issued by M, the warnings of U
are the old ones followed by the one record of reason r and moderator M, and
the entries of the other users are unchanged; a following `warnings(user=U)`
whose title is at most 256 and whose description at most 4096 code units long
replies with the description that is the line `<n+1>. r - <@M>` alone when U
had no warning, and the old description, a newline and that line otherwise;
beyond these lengths it replies with the generic error message. -/
theorem warn_then_warnings (env env2 : Env) (i i2 : Interaction) (st : Storage)
    (target target2 : User) (r : String)
    (hcmd : i.isChatInputCommand = true) (hname : i.commandName = "warn")
    (huser : i.options.getUser "user" = some target)
    (hreason : i.options.getString "reason" = some r)
    (hcmd2 : i2.isChatInputCommand = true) (hname2 : i2.commandName = "warnings")
    (huser2 : i2.options.getUser "user" = some target2) (hid : target2.id = target.id)
    (hreply2 : env2.replyFails 0 = false) :
    warningsOf (step st (.interaction env i)).1 target.id =
      warningsOf st target.id ++ [⟨some r, i.user.id, env.now⟩] ∧
    (∀ id, id ≠ target.id → (step st (.interaction env i)).1.warnings id = st.warnings id) ∧
    warningsDescription (warningsOf (step st (.interaction env i)).1 target.id) =
      (if warningsOf st target.id = [] then
        specLine ((warningsOf st target.id).length + 1) r i.user.id
      else
        warningsDescription (warningsOf st target.id) ++ "\n" ++
          specLine ((warningsOf st target.id).length + 1) r i.user.id) ∧
    ((jsLength ("Warnings for " ++ target2.tag) ≤ 256 ∧
      jsLength (warningsDescription (warningsOf (step st (.interaction env i)).1 target.id))
        ≤ 4096) →
      step (step st (.interaction env i)).1 (.interaction env2 i2) =
        ((step st (.interaction env i)).1,
         [.reply (.embeds (warningsEmbed target2.tag
           (warningsDescription (warningsOf (step st (.interaction env i)).1 target.id))))])) ∧
    (¬ (jsLength ("Warnings for " ++ target2.tag) ≤ 256 ∧
      jsLength (warningsDescription (warningsOf (step st (.interaction env i)).1 target.id))
        ≤ 4096) →
      step (step st (.interaction env i)).1 (.interaction env2 i2) =
        ((step st (.interaction env i)).1, [.reply (.ephemeral errorMessage)])) ∧
    specLine (0 + 1) "spam" i.user.id = "1. spam - <@" ++ i.user.id ++ ">" := by
  have hst : (step st (.interaction env i)).1 =
      pushWarning target.id ⟨some r, i.user.id, env.now⟩ st := by
    simp only [step]
    rw [warn_storage env i st target hcmd hname huser, hreason]
  have hws : warningsOf (step st (.interaction env i)).1 target.id =
      warningsOf st target.id ++ [⟨some r, i.user.id, env.now⟩] := by
    rw [hst, warningsOf_pushWarning]; simp
  have hstep : ∀ st1 : Storage, step st1 (.interaction env2 i2) =
      ((runInteraction env2 i2 st1).ctx.storage, (runInteraction env2 i2 st1).ctx.log) :=
    fun _ => rfl
  refine ⟨hws, ?_, ?_, ?_, ?_, rfl⟩
  · intro id hne
    rw [hst]
    exact pushWarning_warnings_other _ _ _ _ hne
  · rw [hws, warningsDescription_append]
    by_cases hnil : warningsOf st target.id = [] <;>
      simp [hnil, warningLine, specLine, jsStr]
  · intro hlen
    rw [hstep, warnings_run env2 i2 _ target2 hcmd2 hname2 huser2 hreply2, hid, if_pos hlen]
    rfl
  · intro hlen
    rw [hstep, warnings_run env2 i2 _ target2 hcmd2 hname2 huser2 hreply2, hid, if_neg hlen]
    rfl

/-- C5, amended, at a concrete input: a first `warn(user=U, reason="spam")` by
the moderator of id 7, then `warnings(user=U)`. -/
theorem warn_then_warnings_witness :
    (step (step Storage.empty (.interaction sampleEnv
        (sampleCommand "warn" (sampleUser "7") (some (sampleUser "42"))
          [("reason", "spam")]))).1
      (.interaction sampleEnv
        (sampleCommand "warnings" (sampleUser "7") (some (sampleUser "42")) []))).2 =
      [.reply (.embeds ⟨some "Warnings for 42#0001", some "1. spam - <@7>",
        none, none, some "#ffcc00", none, []⟩)] := by
  have h := (warn_then_warnings sampleEnv sampleEnv
    (sampleCommand "warn" (sampleUser "7") (some (sampleUser "42")) [("reason", "spam")])
    (sampleCommand "warnings" (sampleUser "7") (some (sampleUser "42")) [])
    Storage.empty (sampleUser "42") (sampleUser "42") "spam"
    rfl rfl rfl rfl rfl rfl rfl rfl rfl).2.2.2.1 (by decide)
  rw [h]
  decide

theorem warningLines_eq_ofFn (ws : List WarningRecord) :
    (ws.enum.map fun p => warningLine p.1 p.2) =
      List.ofFn fun k : Fin ws.length =>
        specLine (k.val + 1) (jsStr (ws.get k).reason) (ws.get k).moderator := by
  apply List.ext_getElem
  · simp
  · intro n h1 h2
    simp [warningLine, specLine, List.getElem_enum]

/-- C6 as stated fails: for a user whose one recorded warning has a reason 4097
letters long, the description exceeds the 4096 code units that the embed
builder accepts, and `warnings` replies with the generic error message instead
of the rendered list. -/
theorem warnings_command_long_list :
    (step ⟨JsMap.empty.set "42" [⟨some (String.mk (List.replicate 4097 'a')), "7", 0⟩],
        JsMap.empty, JsMap.empty⟩
      (.interaction sampleEnv
        (sampleCommand "warnings" (sampleUser "7") (some (sampleUser "42")) []))).2 =
      [.reply (.ephemeral "\u201a\xf9\xe5 An error occurred while executing this command.")] := by
  have hws : warningsOf ⟨JsMap.empty.set "42"
      [⟨some (String.mk (List.replicate 4097 'a')), "7", 0⟩], JsMap.empty, JsMap.empty⟩
      (sampleUser "42").id = [⟨some (String.mk (List.replicate 4097 'a')), "7", 0⟩] := rfl
  have hlong : ¬ (jsLength ("Warnings for " ++ (sampleUser "42").tag) ≤ 256 ∧
      jsLength (warningsDescription [⟨some (String.mk (List.replicate 4097 'a')), "7", 0⟩])
        ≤ 4096) := by
    intro h
    have h2 := h.2
    simp only [warningsDescription, List.length_singleton, Nat.one_ne_zero, if_false,
      List.enum_cons, List.enumFrom_nil, List.map_cons, List.map_nil, String.intercalate,
      String.intercalate.go, warningLine, jsStr, Option.getD_some, jsLength_append,
      jsLength_replicate 4097 'a' (by decide)] at h2
    omega
  have hstep : ∀ st1 : Storage, (step st1 (.interaction sampleEnv
      (sampleCommand "warnings" (sampleUser "7") (some (sampleUser "42")) []))).2 =
      (runInteraction sampleEnv
        (sampleCommand "warnings" (sampleUser "7") (some (sampleUser "42")) []) st1).ctx.log :=
    fun _ => rfl
  rw [hstep, warnings_run sampleEnv _ _ (sampleUser "42") rfl rfl rfl rfl, hws, if_neg hlong]
  decide

/-- C6, amended: the `warnings` command never changes the storage; the
description it builds is the literal `No warnings` when the user has no
recorded warning (in particular when the user has no entry at all), and
otherwise the lines `<k>. <reason> - <@<moderator>>` of the recorded warnings,
in insertion order and numbered from 1, joined by newlines; when the title is
at most 256 and the description at most 4096 code units long and the reply
goes through, the run is that one reply with that description; beyond these
lengths the reply is the generic error message. -/
theorem warnings_command_reply (env : Env) (i : Interaction) (st : Storage) (target : User)
    (hcmd : i.isChatInputCommand = true) (hname : i.commandName = "warnings")
    (huser : i.options.getUser "user" = some target) (hreply : env.replyFails 0 = false) :
    (∀ env2 : Env, (step st (.interaction env2 i)).1 = st) ∧
    warningsDescription (warningsOf st target.id) =
      (if (warningsOf st target.id).length = 0 then "No warnings"
        else "\n".intercalate (List.ofFn fun k : Fin (warningsOf st target.id).length =>
          specLine (k.val + 1) (jsStr ((warningsOf st target.id).get k).reason)
            ((warningsOf st target.id).get k).moderator)) ∧
    ((jsLength ("Warnings for " ++ target.tag) ≤ 256 ∧
      jsLength (warningsDescription (warningsOf st target.id)) ≤ 4096) →
      step st (.interaction env i) =
        (st, [.reply (.embeds (warningsEmbed target.tag
          (warningsDescription (warningsOf st target.id))))])) ∧
    (¬ (jsLength ("Warnings for " ++ target.tag) ≤ 256 ∧
      jsLength (warningsDescription (warningsOf st target.id)) ≤ 4096) →
      step st (.interaction env i) = (st, [.reply (.ephemeral errorMessage)])) ∧
    (st.warnings target.id = none → warningsOf st target.id = []) := by
  have hstep : step st (.interaction env i) =
      ((runInteraction env i st).ctx.storage, (runInteraction env i st).ctx.log) := rfl
  refine ⟨?_, ?_, ?_, ?_, ?_⟩
  · intro env2
    exact other_command_storage_of_warnings env2 i st hname
  · simp only [warningsDescription, warningLines_eq_ofFn]
  · intro hlen
    rw [hstep, warnings_run env i st target hcmd hname huser hreply, if_pos hlen]
    rfl
  · intro hlen
    rw [hstep, warnings_run env i st target hcmd hname huser hreply, if_neg hlen]
    rfl
  · intro h
    simp [warningsOf, JsMap.get, h]

/-- C6, amended, at concrete inputs: a user with two recorded warnings, and a
user who was never warned. -/
theorem warnings_command_reply_witness :
    step ⟨JsMap.empty.set "42" [⟨some "spam", "7", 1⟩, ⟨some "flood", "8", 2⟩],
        JsMap.empty, JsMap.empty⟩
      (.interaction sampleEnv
        (sampleCommand "warnings" (sampleUser "7") (some (sampleUser "42")) [])) =
      (⟨JsMap.empty.set "42" [⟨some "spam", "7", 1⟩, ⟨some "flood", "8", 2⟩],
        JsMap.empty, JsMap.empty⟩,
       [.reply (.embeds ⟨some "Warnings for 42#0001",
         some "1. spam - <@7>\n2. flood - <@8>", none, none, some "#ffcc00", none, []⟩)]) ∧
    step Storage.empty (.interaction sampleEnv
        (sampleCommand "warnings" (sampleUser "7") (some (sampleUser "42")) [])) =
      (Storage.empty, [.reply (.embeds ⟨some "Warnings for 42#0001", some "No warnings",
        none, none, some "#ffcc00", none, []⟩)]) := by
  constructor
  · rw [(warnings_command_reply sampleEnv
      (sampleCommand "warnings" (sampleUser "7") (some (sampleUser "42")) [])
      ⟨JsMap.empty.set "42" [⟨some "spam", "7", 1⟩, ⟨some "flood", "8", 2⟩],
        JsMap.empty, JsMap.empty⟩ (sampleUser "42") rfl rfl rfl rfl).2.2.1 (by decide)]
    rfl
  · rw [(warnings_command_reply sampleEnv
      (sampleCommand "warnings" (sampleUser "7") (some (sampleUser "42")) [])
      Storage.empty (sampleUser "42") rfl rfl rfl rfl).2.2.1 (by decide)]
    rfl

/-! ## The AFK table and the passive listener -/

theorem switchCommand_afk (env : Env) (i : Interaction) (h : i.commandName = "afk") :
    switchCommand env i = afkCase env i := by
  simp [switchCommand, h]

/-- The storage after an `afk` command, whether or not its reply goes through. -/
theorem afk_storage (env : Env) (i : Interaction) (st : Storage)
    (hcmd : i.isChatInputCommand = true) (hname : i.commandName = "afk") :
    (runInteraction env i st).ctx.storage =
      ⟨st.warnings,
       st.afkUsers.set i.user.id ⟨jsOr (i.options.getString "reason") "AFK", env.now⟩,
       st.customCommands⟩ := by
  simp only [runInteraction, interactionCreate, hcmd, switchCommand_afk env i hname,
    afkCase, Ctx.start]
  cases h0 : env.replyFails 0 <;> cases h1 : env.replyFails 1 <;>
    simp [tryCatch, andThen, updateStorage, reply, catchBlock, h0, h1, Res.ctx]

theorem afkUnchanged_refl (s : Storage) : AfkUnchanged s s := rfl

theorem afkUnchanged_trans (s1 s2 s3 : Storage) (h12 : AfkUnchanged s1 s2)
    (h23 : AfkUnchanged s2 s3) : AfkUnchanged s1 s3 := h23.trans h12

theorem keeps_warnCase_afk (env : Env) (i : Interaction) :
    Keeps AfkUnchanged (warnCase env i) := by
  unfold warnCase
  dsimp only
  split
  · exact keeps_raise afkUnchanged_refl
  · exact keeps_andThen afkUnchanged_trans
      (keeps_updateStorage _ (fun s => pushWarning_afkUsers _ _ s))
      (keeps_reply afkUnchanged_refl env _)

/-- A command other than `afk` leaves the AFK table as it was. -/
theorem other_command_afkUsers (env : Env) (i : Interaction) (st : Storage)
    (hname : i.commandName ≠ "afk") :
    (runInteraction env i st).ctx.storage.afkUsers = st.afkUsers :=
  keeps_interactionCreate afkUnchanged_refl afkUnchanged_trans env i
    (fun _ => keeps_warnCase_afk env i) (fun ha => absurd ha hname) (Ctx.start st)

theorem not_chatInput_storage (env : Env) (i : Interaction) (st : Storage)
    (hcmd : i.isChatInputCommand = false) :
    (runInteraction env i st).ctx.storage = st := by
  simp [runInteraction, interactionCreate, hcmd, skip, Res.ctx, Ctx.start]

/-- The storage after a chat message that is not from a bot. -/
theorem messageCreate_afkUsers (m : Message) (st : Storage) (hbot : m.author.bot = false) :
    (messageCreate m st).1.afkUsers = st.afkUsers.delete m.author.id := by
  unfold messageCreate
  rw [hbot]
  cases hhas : st.afkUsers.has m.author.id
  · funext id
    simp only [JsMap.has] at hhas
    by_cases hid : id = m.author.id
    · cases h : st.afkUsers m.author.id
      · simp [JsMap.has, JsMap.delete, hid, h]
      · simp [h] at hhas
    · simp [JsMap.has, JsMap.delete, hid]
  · simp [hhas]

/-- The AFK record of a user after one event. -/
theorem step_afkUsers (st : Storage) (e : Event) (id : String) :
    (step st e).1.afkUsers id =
      match e with
      | .interaction env i =>
        if e.isAfkBy id then some ⟨jsOr (i.options.getString "reason") "AFK", env.now⟩
        else st.afkUsers id
      | .message _ => if e.isMessageBy id then none else st.afkUsers id := by
  cases e with
  | interaction env i =>
    simp only [step, Event.isAfkBy]
    by_cases hcmd : i.isChatInputCommand = true
    · by_cases hname : i.commandName = "afk"
      · rw [afk_storage env i st hcmd hname]
        by_cases hid : i.user.id = id
        · simp [hcmd, hname, hid, JsMap.set]
        · have hid2 : ¬ id = i.user.id := fun h => hid h.symm
          simp [hname, hid, hid2, JsMap.set]
      · rw [other_command_afkUsers env i st hname]
        simp [hname]
    · have hcmd2 : i.isChatInputCommand = false := by simpa using hcmd
      simp [not_chatInput_storage env i st hcmd2, hcmd2]
  | message m =>
    simp only [step, Event.isMessageBy]
    by_cases hbot : m.author.bot = true
    · simp [messageCreate, hbot]
    · have hbot2 : m.author.bot = false := by simpa using hbot
      rw [messageCreate_afkUsers m st hbot2]
      by_cases hid : m.author.id = id
      · simp [hbot2, hid, JsMap.delete]
      · have hid2 : ¬ id = m.author.id := fun h => hid h.symm
        simp [hbot2, hid, hid2, JsMap.delete]

theorem run_append (st : Storage) (es1 es2 : List Event) :
    run st (es1 ++ es2) = run (run st es1) es2 := by
  simp [run, List.foldl_append]

theorem run_cons (st : Storage) (e : Event) (es : List Event) :
    run st (e :: es) = run (step st e).1 es := rfl

/-- Events that are neither an `afk` command of the user nor a message of the
user leave the AFK record of the user as it was. -/
theorem run_afkUsers_of_quiet (st : Storage) (es : List Event) (id : String)
    (hq : ∀ e ∈ es, e.isAfkBy id = false ∧ e.isMessageBy id = false) :
    (run st es).afkUsers id = st.afkUsers id := by
  induction es generalizing st with
  | nil => rfl
  | cons e es ih =>
    rw [run_cons, ih _ (fun e2 h2 => hq e2 (List.mem_cons_of_mem _ h2)), step_afkUsers]
    have h := hq e (List.mem_cons_self _ _)
    cases e <;> simp [h.1, h.2]


theorem run_has_of_no_message (st : Storage) (es : List Event) (id : String)
    (h : st.afkUsers.has id = true) (hq : ∀ e ∈ es, e.isMessageBy id = false) :
    (run st es).afkUsers.has id = true := by
  induction es generalizing st with
  | nil => exact h
  | cons e es ih =>
    rw [run_cons]
    apply ih _ _ (fun e2 h2 => hq e2 (List.mem_cons_of_mem _ h2))
    have hm := hq e (List.mem_cons_self _ _)
    simp only [JsMap.has, step_afkUsers]
    cases e with
    | interaction env i =>
      dsimp only
      split
      · rfl
      · exact h
    | message m =>
      dsimp only
      rw [hm]
      exact h

theorem afkNotice_ne_welcomeBack (user : User) (reason : String) :
    afkNotice user reason ≠ welcomeBack := by
  intro h
  simp only [afkNotice, welcomeBack, Effect.messageReply.injEq] at h
  have h2 := congrArg String.data h
  simp [String.data_append] at h2

theorem welcomeBack_not_mem_afkNotices (m : Message) (st : Storage) :
    welcomeBack ∉ afkNotices m st := by
  intro h
  simp only [afkNotices, List.mem_filterMap, Option.map_eq_some'] at h
  obtain ⟨user, _, r, _, hr⟩ := h
  exact afkNotice_ne_welcomeBack user r.reason hr

/-- The replies of the passive listener to a message that is not from a bot:
the welcome-back notice when the author had an AFK record, then the AFK notices
of the mentioned users, read in the storage after the message. -/
theorem messageCreate_log (m : Message) (st : Storage) (hbot : m.author.bot = false) :
    (messageCreate m st).2 =
      (if st.afkUsers.has m.author.id then [welcomeBack] else []) ++
        afkNotices m (messageCreate m st).1 := by
  have hfun : ∀ (s : Storage), (fun user : User =>
      if s.afkUsers.has user.id = true then
        (s.afkUsers.get user.id).map fun afkData => afkNotice user afkData.reason
      else none) = fun user => (s.afkUsers user.id).map fun r => afkNotice user r.reason := by
    intro s
    funext user
    cases h : s.afkUsers user.id <;> simp [JsMap.has, JsMap.get, h]
  unfold messageCreate afkNotices
  rw [hbot]
  cases hhas : st.afkUsers.has m.author.id
  · simp only [hhas, hfun]
    simp
  · simp only [hhas, hfun]
    simp


/-- C7 as stated fails: an `afk` command given the empty reason stores the
reason `AFK`, not the reason given. -/
theorem afk_empty_reason_stored_as_default :
    (sampleCommand "afk" (sampleUser "1") none [("reason", "")]).options.getString "reason" =
      some "" ∧
    (run Storage.empty
      [.interaction sampleEnv (sampleCommand "afk" (sampleUser "1") none [("reason", "")])]
      ).afkUsers "1" = some ⟨"AFK", 1700000000000⟩ ∧
    (run Storage.empty
      [.interaction sampleEnv (sampleCommand "afk" (sampleUser "1") none [("reason", "")])]
      ).afkUsers "1" ≠ some ⟨"", 1700000000000⟩ := by
  decide

/-- C7, amended: from the empty stores, a user has an AFK record after a
sequence of events exactly when the user issued an `afk` command with no
message of theirs (not from a bot) after it; after the most recent such command
the record holds the reason given to it, or `AFK` when none or the empty string
was given; the user is AFK right after `afk`, and their next message removes
the record and sends the welcome-back notice exactly once. -/
theorem afk_state_machine (events : List Event) (id : String) :
    ((run Storage.empty events).afkUsers.has id = true ↔
      ∃ pre env i post, events = pre ++ Event.interaction env i :: post ∧
        i.isChatInputCommand = true ∧ i.commandName = "afk" ∧ i.user.id = id ∧
        ∀ e ∈ post, e.isMessageBy id = false) ∧
    (∀ pre env i post, events = pre ++ Event.interaction env i :: post →
      i.isChatInputCommand = true → i.commandName = "afk" → i.user.id = id →
      (∀ e ∈ post, e.isAfkBy id = false ∧ e.isMessageBy id = false) →
      (run Storage.empty events).afkUsers id =
        some ⟨(match i.options.getString "reason" with
          | some r => if r = "" then "AFK" else r
          | none => "AFK"), env.now⟩) ∧
    (∀ (st : Storage) env i, i.isChatInputCommand = true → i.commandName = "afk" →
      i.user.id = id → (step st (.interaction env i)).1.afkUsers.has id = true) ∧
    (∀ (st : Storage) (m : Message), m.author.bot = false → m.author.id = id →
      st.afkUsers.has id = true →
      (step st (.message m)).1.afkUsers id = none ∧
      (step st (.message m)).2 = welcomeBack :: afkNotices m (step st (.message m)).1 ∧
      (step st (.message m)).2.count welcomeBack = 1) := by
  have hafk : ∀ (env : Env) (i : Interaction), i.isChatInputCommand = true →
      i.commandName = "afk" → i.user.id = id →
      (Event.interaction env i).isAfkBy id = true := by
    intro env i h1 h2 h3
    simp [Event.isAfkBy, h1, h2, h3]
  refine ⟨⟨?_, ?_⟩, ?_, ?_, ?_⟩
  · induction events using List.reverseRecOn with
    | nil => intro h; simp [run, Storage.empty, JsMap.empty, JsMap.has] at h
    | append_singleton es e ih =>
      intro h
      rw [run_append, run_cons] at h
      simp only [run, List.foldl_nil, JsMap.has, step_afkUsers] at h
      cases e with
      | interaction env i =>
        dsimp only at h
        by_cases hab : (Event.interaction env i).isAfkBy id = true
        · simp only [Event.isAfkBy, Bool.and_eq_true, beq_iff_eq] at hab
          exact ⟨es, env, i, [], rfl, hab.1.1, hab.1.2, hab.2, by simp⟩
        · rw [if_neg hab] at h
          obtain ⟨pre, env2, i2, post, hes, h1, h2, h3, h4⟩ := ih h
          refine ⟨pre, env2, i2, post ++ [Event.interaction env i], ?_, h1, h2, h3, ?_⟩
          · rw [hes]; simp
          · intro e2 he2
            rcases List.mem_append.1 he2 with hm | hm
            · exact h4 e2 hm
            · simp only [List.mem_singleton] at hm
              rw [hm]; rfl
      | message m =>
        dsimp only at h
        by_cases hmb : (Event.message m).isMessageBy id = true
        · rw [if_pos hmb] at h
          simp at h
        · rw [if_neg hmb] at h
          obtain ⟨pre, env2, i2, post, hes, h1, h2, h3, h4⟩ := ih h
          refine ⟨pre, env2, i2, post ++ [Event.message m], ?_, h1, h2, h3, ?_⟩
          · rw [hes]; simp
          · intro e2 he2
            rcases List.mem_append.1 he2 with hm | hm
            · exact h4 e2 hm
            · simp only [List.mem_singleton] at hm
              rw [hm]; simpa using hmb
  · rintro ⟨pre, env, i, post, hes, h1, h2, h3, h4⟩
    rw [hes, run_append, run_cons]
    apply run_has_of_no_message _ _ _ _ h4
    simp only [JsMap.has, step_afkUsers, hafk env i h1 h2 h3]
    rfl
  · intro pre env i post hes h1 h2 h3 h4
    rw [hes, run_append, run_cons, run_afkUsers_of_quiet _ _ _ h4, step_afkUsers]
    simp only [hafk env i h1 h2 h3, if_true, jsOr]
    cases i.options.getString "reason" <;> rfl
  · intro st env i h1 h2 h3
    simp only [JsMap.has, step_afkUsers, hafk env i h1 h2 h3]
    rfl
  · intro st m hbot hid hhas
    have hmb : (Event.message m).isMessageBy id = true := by
      simp [Event.isMessageBy, hbot, hid]
    have hlog : (step st (.message m)).2 =
        welcomeBack :: afkNotices m (step st (.message m)).1 := by
      simp only [step]
      rw [messageCreate_log m st hbot, hid, hhas]
      rfl
    refine ⟨?_, hlog, ?_⟩
    · rw [step_afkUsers]
      simp only [hmb, if_true]
    · rw [hlog, List.count_cons_self,
        List.count_eq_zero_of_not_mem (welcomeBack_not_mem_afkNotices m _)]

/-- C7, amended, at a concrete input: after `afk(reason="lunch")` by user 1
and a message by user 2, user 1 holds the record of reason `lunch`. -/
theorem afk_state_machine_witness :
    (run Storage.empty
      [.interaction sampleEnv (sampleCommand "afk" (sampleUser "1") none [("reason", "lunch")]),
       .message ⟨sampleUser "2", []⟩]).afkUsers "1" = some ⟨"lunch", 1700000000000⟩ :=
  (afk_state_machine
    [.interaction sampleEnv (sampleCommand "afk" (sampleUser "1") none [("reason", "lunch")]),
     .message ⟨sampleUser "2", []⟩] "1").2.1 [] sampleEnv
    (sampleCommand "afk" (sampleUser "1") none [("reason", "lunch")])
    [.message ⟨sampleUser "2", []⟩] rfl rfl rfl rfl (by decide)


theorem run_replicate_message (m : Message) (st : Storage) (k : Nat) :
    run st (List.replicate (k + 1) (.message m)) = (messageCreate m st).1 := by
  induction k generalizing st with
  | zero => rfl
  | succ k ih =>
    rw [List.replicate_succ, run_cons, ih]
    by_cases hbot : m.author.bot = true
    · simp [step, messageCreate, hbot]
    · have hbot2 : m.author.bot = false := by simpa using hbot
      have h1 := messageCreate_afkUsers m st hbot2
      have hhas : (messageCreate m st).1.afkUsers.has m.author.id = false := by
        rw [h1]; simp [JsMap.has, JsMap.delete]
      simp only [step]
      generalize (messageCreate m st).1 = s1 at hhas
      simp [messageCreate, hbot2, hhas]

/-- C8: a chat message that is not from a bot leaves the AFK record of every
user other than its author, and the two other tables, as they were; its replies
are the welcome-back notice when the author had an AFK record, then one AFK
notice per mentioned user who has an AFK record in the storage after the
message, showing the stored reason; handled again any number of times, the same
message produces the same AFK notices and nothing else. -/
theorem mentions_keep_state (st : Storage) (m : Message) (hbot : m.author.bot = false) :
    (∀ id, id ≠ m.author.id → (messageCreate m st).1.afkUsers id = st.afkUsers id) ∧
    (messageCreate m st).1.warnings = st.warnings ∧
    (messageCreate m st).1.customCommands = st.customCommands ∧
    (messageCreate m st).2 =
      (if st.afkUsers.has m.author.id then [welcomeBack] else []) ++
        m.mentions.filterMap (fun user =>
          ((messageCreate m st).1.afkUsers user.id).map fun r =>
            Effect.messageReply ("\uf8ff\xfc\xed\xa7 " ++ user.tag ++ " is AFK: " ++ r.reason)) ∧
    (∀ k, step (run st (List.replicate (k + 1) (.message m))) (.message m) =
      ((messageCreate m st).1, afkNotices m (messageCreate m st).1)) := by
  refine ⟨?_, messageCreate_warnings m st, messageCreate_customCommands m st, ?_, ?_⟩
  · intro id hne
    rw [messageCreate_afkUsers m st hbot]
    simp [JsMap.delete, hne]
  · rw [messageCreate_log m st hbot]
    rfl
  · intro k
    rw [run_replicate_message]
    have h1 := messageCreate_afkUsers m st hbot
    have hhas : (messageCreate m st).1.afkUsers.has m.author.id = false := by
      rw [h1]; simp [JsMap.has, JsMap.delete]
    have hlog := messageCreate_log m (messageCreate m st).1 hbot
    have hst : (messageCreate m (messageCreate m st).1).1 = (messageCreate m st).1 := by
      generalize (messageCreate m st).1 = s1 at hhas
      simp [messageCreate, hbot, hhas]
    simp only [step]
    rw [Prod.ext_iff]
    refine ⟨hst, ?_⟩
    rw [hlog, hst, hhas]
    rfl

/-- C8 at a concrete input: user 2 is AFK with the reason `lunch`, and user 1
mentions the users 2 and 3. -/
theorem mentions_keep_state_witness :
    (messageCreate ⟨sampleUser "1", [sampleUser "2", sampleUser "3"]⟩
      (run Storage.empty [.interaction sampleEnv
        (sampleCommand "afk" (sampleUser "2") none [("reason", "lunch")])])).2 =
      [Effect.messageReply "\uf8ff\xfc\xed\xa7 2#0001 is AFK: lunch"] := by
  have h := (mentions_keep_state
    (run Storage.empty [.interaction sampleEnv
      (sampleCommand "afk" (sampleUser "2") none [("reason", "lunch")])])
    ⟨sampleUser "1", [sampleUser "2", sampleUser "3"]⟩ rfl).2.2.2.1
  rw [h]
  decide

/-- C9: a chat message whose author is a bot changes no store and sends no
notice, whoever it mentions and whoever is AFK. -/
theorem bot_messages_inert (st : Storage) (m : Message) (hbot : m.author.bot = true) :
    messageCreate m st = (st, []) ∧ step st (.message m) = (st, []) := by
  simp [step, messageCreate, hbot]

/-- C9 at a concrete input: a bot with an AFK record of its own id mentions
the AFK user 2. -/
theorem bot_messages_inert_witness :
    (messageCreate ⟨⟨"2", "bot#0001", "bot", true, 0, fun _ _ => ""⟩, [sampleUser "2"]⟩
      (run Storage.empty [.interaction sampleEnv
        (sampleCommand "afk" (sampleUser "2") none [])])).2 = [] := by
  have h := (bot_messages_inert
    (run Storage.empty [.interaction sampleEnv (sampleCommand "afk" (sampleUser "2") none [])])
    ⟨⟨"2", "bot#0001", "bot", true, 0, fun _ _ => ""⟩, [sampleUser "2"]⟩ rfl).1
  rw [h]


/-! ## The poll handler -/

theorem splitComma_ne_nil (l : List Char) : splitComma l ≠ [] := by
  cases l with
  | nil => simp [splitComma]
  | cons c cs =>
    unfold splitComma
    split
    · simp
    · split <;> simp

theorem splitComma_length (l : List Char) : (splitComma l).length = l.count ',' + 1 := by
  induction l with
  | nil => simp [splitComma]
  | cons c cs ih =>
    unfold splitComma
    by_cases hc : c = ','
    · simp [hc, ih]
    · have hne := splitComma_ne_nil cs
      have hcount : (c :: cs).count ',' = cs.count ',' := by
        rw [List.count_cons]
        simp [hc]
      rw [if_neg hc, hcount, ← ih]
      cases h : splitComma cs with
      | nil => exact absurd h hne
      | cons seg segs => simp

theorem switchCommand_poll (env : Env) (i : Interaction) (h : i.commandName = "poll") :
    switchCommand env i = pollCase env i := by
  simp [switchCommand, h]

theorem reactLoop_ok (env : Env) (hreact : ∀ k, env.reactFails k = false) (i k : Nat)
    (c : Ctx) :
    reactLoop env i k c =
      .ok { c with log := c.log ++ (List.range' i k).map fun j => .react (pollEmoji j) } := by
  induction k generalizing i c with
  | zero => simp [reactLoop, skip]
  | succ k ih =>
    simp only [reactLoop, andThen, perform, hreact, Bool.false_eq_true, if_false]
    rw [ih]
    simp [List.range'_succ]

theorem pollLines_eq_ofFn (segs : List (List Char)) :
    ((segs.map fun o => String.mk (jsTrim o)).enum.map fun p => pollLine p.1 p.2) =
      List.ofFn fun k : Fin segs.length =>
        toString (k.val + 1) ++ keycap ++ " " ++ String.mk (jsTrim (segs.get k)) := by
  apply List.ext_getElem
  · simp
  · intro n h1 h2
    simp [pollLine, List.getElem_enum]

theorem reactions_eq_ofFn (n : Nat) :
    ((List.range' 0 n).map fun j => Effect.react (pollEmoji j)) =
      List.ofFn fun k : Fin n => Effect.react (toString (k.val + 1) ++ keycap) := by
  apply List.ext_getElem
  · simp
  · intro k h1 h2
    simp [pollEmoji, List.getElem_range']

theorem textEmbed_valid (acceptsUrl : String → Bool) (t d c : String)
    (ht : 1 ≤ jsLength t) (hd : 1 ≤ jsLength d) :
    Embed.valid acceptsUrl ⟨some t, some d, none, none, some c, none, []⟩ =
      (decide (jsLength t ≤ 256) && decide (jsLength d ≤ 4096)) := by
  simp [Embed.valid, lengthWithin, ht, hd]

theorem pollTitle_nonempty (question : Option String) : 1 ≤ jsLength (pollTitle question) := by
  unfold pollTitle
  rw [jsLength_append]
  have h : jsLength "\uf8ff\xfc\xec\xe4 " = 5 := by decide
  omega

theorem pollOptions_ne_nil (options : String) : pollOptions options ≠ [] := by
  unfold pollOptions
  intro h
  exact splitComma_ne_nil _ (List.map_eq_nil_iff.1 h)

theorem pollDescription_nonempty (options : String) :
    1 ≤ jsLength (pollDescription options) := by
  unfold pollDescription
  cases h : pollOptions options with
  | nil => exact absurd h (pollOptions_ne_nil options)
  | cons o os =>
    simp only [List.enum_cons, List.map_cons]
    refine Nat.le_trans ?_ (intercalate_length _ _ _)
    simp only [pollLine, jsLength_append]
    have h1 : jsLength " " = 1 := by decide
    omega

/-- The run of `poll` on an options string with 2 to 10 segments, when the
reply and the reactions go through: the poll and its reactions, or the generic
error message when the embed builder rejects the title or the description. -/
theorem poll_run (env : Env) (i : Interaction) (st : Storage) (options : String)
    (hcmd : i.isChatInputCommand = true) (hname : i.commandName = "poll")
    (hopts : i.options.getString "options" = some options)
    (hreply : env.replyFails 0 = false) (hreact : ∀ k, env.reactFails k = false)
    (hn : 2 ≤ (splitComma options.toList).length ∧ (splitComma options.toList).length ≤ 10) :
    runInteraction env i st =
      if jsLength (pollTitle (i.options.getString "question")) ≤ 256 ∧
          jsLength (pollDescription options) ≤ 4096 then
        .ok ⟨st, true, false, 1,
          .reply (.embeds (pollEmbed (i.options.getString "question") options)) ::
          List.ofFn fun k : Fin (splitComma options.toList).length =>
            Effect.react (toString (k.val + 1) ++ keycap)⟩
      else .ok ⟨st, true, false, 1, [.reply (.ephemeral errorMessage)]⟩ := by
  have hlen : (pollOptions options).length = (splitComma options.toList).length := by
    simp [pollOptions]
  have h2 : ¬ ((pollOptions options).length < 2 ∨ (pollOptions options).length > 10) := by
    rw [hlen]; omega
  have hv := textEmbed_valid env.acceptsUrl (pollTitle (i.options.getString "question"))
    (pollDescription options) "#5865F2" (pollTitle_nonempty _) (pollDescription_nonempty _)
  have hcase : pollCase env i =
      andThen (withEmbed env (reply env) (pollEmbed (i.options.getString "question") options))
        (reactLoop env 0 (pollOptions options).length) := by
    simp only [pollCase, hopts, h2, if_false]
    rfl
  simp only [runInteraction, interactionCreate, hcmd, switchCommand_poll env i hname, hcase,
    Ctx.start, withEmbed, pollEmbed]
  by_cases hok : jsLength (pollTitle (i.options.getString "question")) ≤ 256 ∧
      jsLength (pollDescription options) ≤ 4096
  · have hv2 := hv
    simp only [hok.1, hok.2, decide_True, Bool.and_self] at hv2
    rw [if_pos hok]
    simp [tryCatch, andThen, reply, hreply, hv2, reactLoop_ok env hreact, hlen,
      reactions_eq_ofFn]
  · have hd : (decide (jsLength (pollTitle (i.options.getString "question")) ≤ 256) &&
        decide (jsLength (pollDescription options) ≤ 4096)) = false := by
      simpa using hok
    rw [hd] at hv
    rw [if_neg hok]
    simp [tryCatch, andThen, reply, hreply, hv, raise, catchBlock]

/-- C10 as stated fails: with two options and a question of 252 letters the
title of the embed is 257 code units long, more than the 256 that the embed
builder accepts; the handler replies with the generic error message and
attaches no reaction. -/
theorem poll_long_question :
    (splitComma "a,b".toList).length = 2 ∧
    (runInteraction sampleEnv
      (sampleCommand "poll" (sampleUser "1") none
        [("question", String.mk (List.replicate 252 'q')), ("options", "a,b")])
      Storage.empty).ctx.log =
      [.reply (.ephemeral "\u201a\xf9\xe5 An error occurred while executing this command.")] := by
  refine ⟨by decide, ?_⟩
  have hlong : ¬ (jsLength (pollTitle ((sampleCommand "poll" (sampleUser "1") none
      [("question", String.mk (List.replicate 252 'q')), ("options", "a,b")]).options.getString
        "question")) ≤ 256 ∧ jsLength (pollDescription "a,b") ≤ 4096) := by
    intro h
    have h1 := h.1
    have hq : (sampleCommand "poll" (sampleUser "1") none
        [("question", String.mk (List.replicate 252 'q')), ("options", "a,b")]).options.getString
          "question" = some (String.mk (List.replicate 252 'q')) := rfl
    have h5 : jsLength "\uf8ff\xfc\xec\xe4 " = 5 := by decide
    rw [hq] at h1
    simp only [pollTitle, jsStr, Option.getD_some, jsLength_append, h5,
      jsLength_replicate 252 'q' (by decide)] at h1
    omega
  rw [poll_run sampleEnv _ Storage.empty "a,b" rfl rfl rfl rfl (fun _ => rfl)
    ⟨by decide, by decide⟩, if_neg hlong]
  decide

/-- C10, amended: with the option count the number of comma-separated segments
of the options string (one more than its number of commas), and when the reply
and the reactions go through, the poll handler replies `Poll must have 2-10
options.` and attaches nothing exactly when the count is below 2 or above 10;
for a count n from 2 to 10 the description it builds is the n lines, the k-th
being the number k, the keycap mark, a space and the trimmed k-th segment,
joined by newlines; when the title is at most 256 and the description at most
4096 code units long it replies with that embed and then attaches the n
reactions numbered 1 to n in order, and beyond these lengths it replies with
the generic error message and attaches nothing. -/
theorem poll_validation (env : Env) (i : Interaction) (st : Storage) (options : String)
    (hcmd : i.isChatInputCommand = true) (hname : i.commandName = "poll")
    (hopts : i.options.getString "options" = some options)
    (hreply : env.replyFails 0 = false) (hreact : ∀ k, env.reactFails k = false) :
    (splitComma options.toList).length = options.toList.count ',' + 1 ∧
    (((splitComma options.toList).length < 2 ∨ 10 < (splitComma options.toList).length) →
      runInteraction env i st = .ok ⟨st, true, false, 1,
        [.reply (.text "\u201a\xf9\xe5 Poll must have 2-10 options.")]⟩) ∧
    pollDescription options =
      "\n".intercalate (List.ofFn fun k : Fin (splitComma options.toList).length =>
        toString (k.val + 1) ++ keycap ++ " " ++
          String.mk (jsTrim ((splitComma options.toList).get k))) ∧
    ((2 ≤ (splitComma options.toList).length ∧ (splitComma options.toList).length ≤ 10) →
      (jsLength (pollTitle (i.options.getString "question")) ≤ 256 ∧
        jsLength (pollDescription options) ≤ 4096) →
      runInteraction env i st = .ok ⟨st, true, false, 1,
        .reply (.embeds ⟨some ("\uf8ff\xfc\xec\xe4 " ++ jsStr (i.options.getString "question")),
          some (pollDescription options), none, none, some "#5865F2", none, []⟩) ::
        List.ofFn fun k : Fin (splitComma options.toList).length =>
          Effect.react (toString (k.val + 1) ++ keycap)⟩) ∧
    ((2 ≤ (splitComma options.toList).length ∧ (splitComma options.toList).length ≤ 10) →
      ¬ (jsLength (pollTitle (i.options.getString "question")) ≤ 256 ∧
        jsLength (pollDescription options) ≤ 4096) →
      runInteraction env i st = .ok ⟨st, true, false, 1, [.reply (.ephemeral errorMessage)]⟩) ∧
    ((runInteraction env i st).ctx.log =
        [.reply (.text "\u201a\xf9\xe5 Poll must have 2-10 options.")] ↔
      ((splitComma options.toList).length < 2 ∨ 10 < (splitComma options.toList).length)) := by
  have hlen : (pollOptions options).length = (splitComma options.toList).length := by
    simp [pollOptions]
  have hcross : crossMark ++ " Poll must have 2-10 options." =
      "\u201a\xf9\xe5 Poll must have 2-10 options." := by decide
  have hrej : ((splitComma options.toList).length < 2 ∨
      10 < (splitComma options.toList).length) →
      runInteraction env i st = .ok ⟨st, true, false, 1,
        [.reply (.text "\u201a\xf9\xe5 Poll must have 2-10 options.")]⟩ := by
    intro h
    have h2 : (pollOptions options).length < 2 ∨ (pollOptions options).length > 10 := by
      rw [hlen]; exact h
    simp only [runInteraction, interactionCreate, hcmd, switchCommand_poll env i hname,
      pollCase, hopts, Ctx.start]
    simp [tryCatch, reply, hreply, h2, hcross]
  refine ⟨splitComma_length _, hrej, ?_, ?_, ?_, ?_, fun hh => by rw [hrej hh]; rfl⟩
  · simp only [pollDescription, pollOptions, pollLines_eq_ofFn]
  · intro hn hok
    rw [poll_run env i st options hcmd hname hopts hreply hreact hn, if_pos hok]
    rfl
  · intro hn hok
    rw [poll_run env i st options hcmd hname hopts hreply hreact hn, if_neg hok]
  · intro hlog
    by_contra hnot
    have hin : 2 ≤ (splitComma options.toList).length ∧
        (splitComma options.toList).length ≤ 10 := by omega
    rw [poll_run env i st options hcmd hname hopts hreply hreact hin] at hlog
    split at hlog <;> simp [Res.ctx] at hlog

/-- C10, amended, at a concrete input: the options string `a, b` has two
segments. -/
theorem poll_validation_witness :
    (runInteraction sampleEnv
      (sampleCommand "poll" (sampleUser "1") none [("question", "Lunch?"), ("options", "a, b")])
      Storage.empty).ctx.log =
      [.reply (.embeds ⟨some "\uf8ff\xfc\xec\xe4 Lunch?",
          some ("1" ++ keycap ++ " a\n2" ++ keycap ++ " b"),
          none, none, some "#5865F2", none, []⟩),
       .react ("1" ++ keycap), .react ("2" ++ keycap)] := by
  have h := (poll_validation sampleEnv
    (sampleCommand "poll" (sampleUser "1") none [("question", "Lunch?"), ("options", "a, b")])
    Storage.empty "a, b" rfl rfl rfl rfl (fun _ => rfl)).2.2.2.1 (by decide) (by decide)
  rw [h]
  decide

/-! ## The dispatcher fallback and the custom commands -/

theorem switchCommand_default (env : Env) (i : Interaction)
    (h : i.commandName ∉ caseNames) : switchCommand env i = defaultCase env i := by
  simp only [caseNames, List.mem_cons, List.mem_singleton, List.not_mem_nil, or_false,
    not_or] at h
  obtain ⟨h1, h2, h3, h4, h5, h6, h7, h8, h9, h10, h11, h12, h13, h14, h15, h16⟩ := h
  unfold switchCommand
  rw [if_neg h1, if_neg h2, if_neg h3, if_neg h4, if_neg h5, if_neg h6, if_neg h7, if_neg h8,
    if_neg h9, if_neg h10, if_neg h11, if_neg h12, if_neg h13, if_neg h14, if_neg h15,
    if_neg h16]

theorem storageUnchanged_refl (s : Storage) : StorageUnchanged s s := rfl

theorem storageUnchanged_trans (s1 s2 s3 : Storage) (h12 : StorageUnchanged s1 s2)
    (h23 : StorageUnchanged s2 s3) : StorageUnchanged s1 s3 := h23.trans h12

theorem customUnchanged_refl (s : Storage) : CustomUnchanged s s := rfl

theorem customUnchanged_trans (s1 s2 s3 : Storage) (h12 : CustomUnchanged s1 s2)
    (h23 : CustomUnchanged s2 s3) : CustomUnchanged s1 s3 := h23.trans h12

/-- A command other than `warn` and `afk` leaves the whole storage as it was,
whatever the outcome of the platform calls. -/
theorem other_command_storage (env : Env) (i : Interaction) (st : Storage)
    (hwarn : i.commandName ≠ "warn") (hafk : i.commandName ≠ "afk") :
    (runInteraction env i st).ctx.storage = st :=
  keeps_interactionCreate storageUnchanged_refl storageUnchanged_trans env i
    (fun h => absurd h hwarn) (fun h => absurd h hafk) (Ctx.start st)

/-- No event writes the custom-command table. -/
theorem step_customCommands (st : Storage) (e : Event) :
    (step st e).1.customCommands = st.customCommands := by
  cases e with
  | interaction env i =>
    refine keeps_interactionCreate customUnchanged_refl customUnchanged_trans env i
      (fun _ => ?_) (fun _ => ?_) (Ctx.start st)
    · unfold warnCase
      dsimp only
      split
      · exact keeps_raise customUnchanged_refl
      · exact keeps_andThen customUnchanged_trans
          (keeps_updateStorage _ (fun s => pushWarning_customCommands _ _ s))
          (keeps_reply customUnchanged_refl env _)
    · unfold afkCase
      dsimp only
      exact keeps_andThen customUnchanged_trans
        (keeps_updateStorage _ (fun _ => rfl)) (keeps_reply customUnchanged_refl env _)
  | message m => exact messageCreate_customCommands m st

theorem run_customCommands (st : Storage) (events : List Event) :
    (run st events).customCommands = st.customCommands := by
  induction events generalizing st with
  | nil => rfl
  | cons e es ih => rw [run_cons, ih, step_customCommands]

/-- The run of the default case when the reply goes through. -/
theorem default_run (env : Env) (i : Interaction) (st : Storage)
    (hcmd : i.isChatInputCommand = true) (hname : i.commandName ∉ caseNames)
    (hreply : env.replyFails 0 = false) :
    runInteraction env i st = .ok ⟨st, true, false, 1,
      [.reply (.text (match st.customCommands i.commandName with
        | some text => text
        | none => "\u201a\xf9\xe5 Command not implemented yet!"))]⟩ := by
  have hcross : crossMark ++ " Command not implemented yet!" =
      "\u201a\xf9\xe5 Command not implemented yet!" := by decide
  simp only [runInteraction, interactionCreate, hcmd, switchCommand_default env i hname,
    defaultCase, Ctx.start, JsMap.has, JsMap.get]
  cases h : st.customCommands i.commandName <;>
    simp [tryCatch, defaultCase, JsMap.has, JsMap.get, h, reply, hreply, hcross, jsStr]

/-- C11: for a command name that has no case of its own in the `switch`, the
dispatcher leaves the storage as it was under every outcome of the platform
calls, and when its reply goes through the run is exactly one reply: the stored
text when the custom-command table has an entry under that name, the message
`Command not implemented yet!` when it has none. -/
theorem dispatcher_fallback (env : Env) (i : Interaction) (st : Storage)
    (hcmd : i.isChatInputCommand = true) (hname : i.commandName ∉ caseNames) :
    (runInteraction env i st).ctx.storage = st ∧
    (env.replyFails 0 = false →
      (∀ text, st.customCommands i.commandName = some text →
        runInteraction env i st = .ok ⟨st, true, false, 1, [.reply (.text text)]⟩) ∧
      (st.customCommands i.commandName = none →
        runInteraction env i st = .ok ⟨st, true, false, 1,
          [.reply (.text "\u201a\xf9\xe5 Command not implemented yet!")]⟩)) := by
  have hw : i.commandName ≠ "warn" := fun h => hname (by rw [h]; decide)
  have ha : i.commandName ≠ "afk" := fun h => hname (by rw [h]; decide)
  refine ⟨other_command_storage env i st hw ha, fun hreply => ⟨?_, ?_⟩⟩
  · intro text h
    rw [default_run env i st hcmd hname hreply, h]
  · intro h
    rw [default_run env i st hcmd hname hreply, h]

/-- C11 at concrete inputs: the command `weather`, which is declared without a
case, first against a table holding the text `sunny` under that name, then
against the empty table. -/
theorem dispatcher_fallback_witness :
    (runInteraction sampleEnv (sampleCommand "weather" (sampleUser "1") none [])
      ⟨JsMap.empty, JsMap.empty, JsMap.empty.set "weather" "sunny"⟩).ctx.log =
      [.reply (.text "sunny")] ∧
    (runInteraction sampleEnv (sampleCommand "weather" (sampleUser "1") none [])
      Storage.empty).ctx.log = [.reply (.text "\u201a\xf9\xe5 Command not implemented yet!")] := by
  constructor
  · rw [((dispatcher_fallback sampleEnv (sampleCommand "weather" (sampleUser "1") none [])
      ⟨JsMap.empty, JsMap.empty, JsMap.empty.set "weather" "sunny"⟩ rfl (by decide)).2 rfl).1
      "sunny" rfl]
    rfl
  · rw [((dispatcher_fallback sampleEnv (sampleCommand "weather" (sampleUser "1") none [])
      Storage.empty rfl (by decide)).2 rfl).2 rfl]
    rfl

/-- C12: from the empty stores, after `addcmd(name="hello", response="Hi!")`
the custom-command table has no entry under `hello`, where the claim has it
map `hello` to `Hi!`; the reply to `addcmd` itself is `Command not implemented
yet!`, and so is the reply to a later invocation of `hello`, where the claim
has the reply `Hi!`. -/
theorem addcmd_creates_no_entry :
    (step Storage.empty (.interaction sampleEnv
      (sampleCommand "addcmd" (sampleUser "1") none [("name", "hello"), ("response", "Hi!")]))
      ).1.customCommands "hello" = none ∧
    (step Storage.empty (.interaction sampleEnv
      (sampleCommand "addcmd" (sampleUser "1") none [("name", "hello"), ("response", "Hi!")]))
      ).2 = [.reply (.text "\u201a\xf9\xe5 Command not implemented yet!")] ∧
    (step (step Storage.empty (.interaction sampleEnv
      (sampleCommand "addcmd" (sampleUser "1") none [("name", "hello"), ("response", "Hi!")]))
      ).1 (.interaction sampleEnv (sampleCommand "hello" (sampleUser "1") none []))).2 =
      [.reply (.text "\u201a\xf9\xe5 Command not implemented yet!")] := by
  decide

/-- What the code does on `addcmd`: the command has no case of its own, so it
goes through the default case and leaves the storage as it was; no event at all
writes the custom-command table, which therefore stays empty from startup on. -/
theorem addcmd_not_implemented (env : Env) (i : Interaction) (st : Storage)
    (hcmd : i.isChatInputCommand = true) (hname : i.commandName = "addcmd") :
    (runInteraction env i st).ctx.storage = st ∧
    (env.replyFails 0 = false →
      runInteraction env i st = .ok ⟨st, true, false, 1,
        [.reply (.text (match st.customCommands "addcmd" with
          | some text => text
          | none => "\u201a\xf9\xe5 Command not implemented yet!"))]⟩) ∧
    (∀ (s : Storage) (e : Event), (step s e).1.customCommands = s.customCommands) ∧
    (∀ (events : List Event) (name : String),
      (run Storage.empty events).customCommands name = none) ∧
    (∀ (events : List Event) (env2 : Env) (i2 : Interaction),
      i2.isChatInputCommand = true → i2.commandName ∉ caseNames →
      env2.replyFails 0 = false →
      (step (run Storage.empty events) (.interaction env2 i2)).2 =
        [.reply (.text "\u201a\xf9\xe5 Command not implemented yet!")]) := by
  have hnotin : i.commandName ∉ caseNames := by rw [hname]; decide
  have hw : i.commandName ≠ "warn" := by rw [hname]; decide
  have ha : i.commandName ≠ "afk" := by rw [hname]; decide
  have hempty : ∀ (events : List Event) (name : String),
      (run Storage.empty events).customCommands name = none := by
    intro events name
    rw [run_customCommands]
    rfl
  refine ⟨other_command_storage env i st hw ha, ?_, step_customCommands, hempty, ?_⟩
  · intro hreply
    rw [default_run env i st hcmd hnotin hreply, hname]
  · intro events env2 i2 hcmd2 hname2 hreply2
    have hstep : step (run Storage.empty events) (.interaction env2 i2) =
        ((runInteraction env2 i2 (run Storage.empty events)).ctx.storage,
         (runInteraction env2 i2 (run Storage.empty events)).ctx.log) := rfl
    rw [hstep, default_run env2 i2 _ hcmd2 hname2 hreply2, hempty]
    rfl

/-! ## The configuration check -/

theorem isUnset_eq_false_iff (v : Option String) :
    isUnset v = false ↔ ∃ s, v = some s ∧ s ≠ "" := by
  cases v with
  | none => simp [isUnset]
  | some s => simp [isUnset]

theorem jsLength_empty : jsLength "" = 0 := by decide

/-- The names pushed to `missing`, in order. -/
theorem validateConfig_missing (config : Config)
    (h : isUnset config.token = true ∨ isUnset config.clientId = true) :
    validateConfig config =
      ⟨[.error "\u201a\xf9\xe5 Missing required environment variables:"] ++
        ((if isUnset config.token then [ConsoleLine.error "   - DISCORD_TOKEN"] else []) ++
         (if isUnset config.clientId then [ConsoleLine.error "   - CLIENT_ID"] else [])) ++
        [.error "\nPlease set these environment variables and restart the bot."],
       some 1⟩ := by
  have hcross : crossMark ++ " Missing required environment variables:" =
      "\u201a\xf9\xe5 Missing required environment variables:" := by decide
  unfold validateConfig
  rw [hcross]
  cases ht : isUnset config.token <;> cases hc : isUnset config.clientId <;>
    simp [ht, hc] at h ⊢

theorem validateConfig_present (config : Config)
    (ht : isUnset config.token = false) (hc : isUnset config.clientId = false) :
    (validateConfig config).exitCode =
      if jsLength (config.token.getD "") < 50 then some 1 else none := by
  unfold validateConfig
  simp only [ht, hc, Bool.false_eq_true, if_false, List.append_nil, List.length_nil,
    gt_iff_lt, Nat.lt_irrefl]
  by_cases hlen : jsLength (config.token.getD "") < 50
  · rw [if_pos hlen, if_pos hlen]
  · rw [if_neg hlen, if_neg hlen]

/-- C15: `validateConfig` returns, so that startup continues, exactly when the
token is set with a length of at least 50 and the client id is set and not
empty, whatever the guild id; otherwise it ends the process with exit code 1;
and when a required variable is unset or empty the diagnostic is the heading,
one line per missing variable and the closing line, where `DISCORD_TOKEN` is
listed exactly when the token is missing and `CLIENT_ID` exactly when the
client id is missing. -/
theorem validateConfig_spec (config : Config) :
    ((validateConfig config).exitCode = none ↔
      (∃ t, config.token = some t ∧ 50 ≤ jsLength t) ∧
      (∃ c, config.clientId = some c ∧ c ≠ "")) ∧
    ((validateConfig config).exitCode ≠ none → (validateConfig config).exitCode = some 1) ∧
    ((isUnset config.token = true ∨ isUnset config.clientId = true) →
      (validateConfig config).console =
        [.error "\u201a\xf9\xe5 Missing required environment variables:"] ++
        ((if isUnset config.token then [ConsoleLine.error "   - DISCORD_TOKEN"] else []) ++
         (if isUnset config.clientId then [ConsoleLine.error "   - CLIENT_ID"] else [])) ++
        [.error "\nPlease set these environment variables and restart the bot."] ∧
      (ConsoleLine.error "   - DISCORD_TOKEN" ∈ (validateConfig config).console ↔
        (config.token = none ∨ config.token = some "")) ∧
      (ConsoleLine.error "   - CLIENT_ID" ∈ (validateConfig config).console ↔
        (config.clientId = none ∨ config.clientId = some ""))) := by
  have hunset : ∀ v : Option String, isUnset v = true ↔ (v = none ∨ v = some "") := by
    intro v
    cases v <;> simp [isUnset]
  refine ⟨?_, ?_, ?_⟩
  · cases ht : isUnset config.token
    · cases hc : isUnset config.clientId
      · rw [validateConfig_present config ht hc]
        obtain ⟨t, htok, _⟩ := (isUnset_eq_false_iff _).1 ht
        obtain ⟨c, hcli, hcne⟩ := (isUnset_eq_false_iff _).1 hc
        simp only [htok, hcli, Option.getD_some]
        constructor
        · intro h
          refine ⟨⟨t, rfl, ?_⟩, ⟨c, rfl, hcne⟩⟩
          by_contra hlt
          rw [if_pos (by omega)] at h
          exact absurd h (by simp)
        · rintro ⟨⟨t2, ht2, hlen⟩, _⟩
          simp only [Option.some.injEq] at ht2
          subst ht2
          rw [if_neg (by omega)]
      · rw [validateConfig_missing config (Or.inr hc)]
        constructor
        · intro h; exact absurd h (by simp)
        · rintro ⟨_, ⟨c, hcli, hcne⟩⟩
          rw [hcli] at hc
          simp [isUnset, hcne] at hc
    · rw [validateConfig_missing config (Or.inl ht)]
      constructor
      · intro h; exact absurd h (by simp)
      · rintro ⟨⟨t, htok, hlen⟩, _⟩
        rw [htok] at ht
        simp only [isUnset, beq_iff_eq] at ht
        rw [ht, jsLength_empty] at hlen
        omega
  · intro h
    cases ht : isUnset config.token
    · cases hc : isUnset config.clientId
      · rw [validateConfig_present config ht hc] at h ⊢
        split at h
        · rw [if_pos (by assumption)]
        · exact absurd rfl h
      · rw [validateConfig_missing config (Or.inr hc)]
    · rw [validateConfig_missing config (Or.inl ht)]
  · intro h
    rw [validateConfig_missing config h, ← hunset, ← hunset]
    refine ⟨rfl, ?_, ?_⟩
    · cases ht : isUnset config.token <;> cases hc : isUnset config.clientId <;> simp
    · cases ht : isUnset config.token <;> cases hc : isUnset config.clientId <;> simp

/-- C15 at concrete inputs: a token of sixty characters with a client id, and
a configuration with neither. -/
theorem validateConfig_spec_witness :
    (validateConfig
      ⟨some "abcdefghijklmnopqrstuvwxyzabcdefghijklmnopqrstuvwxyzabcdefgh", some "123",
        none⟩).exitCode = none ∧
    validateConfig ⟨none, some "", some "9"⟩ =
      ⟨[.error "\u201a\xf9\xe5 Missing required environment variables:",
        .error "   - DISCORD_TOKEN", .error "   - CLIENT_ID",
        .error "\nPlease set these environment variables and restart the bot."], some 1⟩ := by
  refine ⟨?_, by decide⟩
  exact (validateConfig_spec
    ⟨some "abcdefghijklmnopqrstuvwxyzabcdefghijklmnopqrstuvwxyzabcdefgh", some "123",
      none⟩).1.2 ⟨⟨_, rfl, by decide⟩, ⟨_, rfl, by decide⟩⟩


/-! ## The catch block -/

/-- The catch block when its one call goes through. -/
theorem catchBlock_ok (env : Env) (c : Ctx) (h : env.replyFails c.calls = false) :
    catchBlock env c =
      .ok ⟨c.storage, (if c.deferred || !c.replied then true else c.replied), c.deferred,
        c.calls + 1, c.log ++ [errorPath c.replied c.deferred]⟩ := by
  unfold catchBlock reply editReply followUp errorPath
  cases hr : c.replied <;> cases hd : c.deferred <;> simp [h]

/-- The catch block when its one call rejects. -/
theorem catchBlock_fails (env : Env) (c : Ctx) (h : env.replyFails c.calls = true) :
    catchBlock env c = .threw { c with calls := c.calls + 1 } := by
  unfold catchBlock reply editReply followUp
  cases hr : c.replied <;> cases hd : c.deferred <;> simp [h]

/-- C14: when the handler of a command throws, in whatever reply state, the
exception is caught: the run goes on with the catch block, which in every reply
state makes exactly one call of a reply primitive, chosen by the reply state
alone (the edit of the deferred reply after a deferral, otherwise a fresh
ephemeral reply when nothing was replied, otherwise an ephemeral follow-up),
with the generic error message; when that call goes through the message is
logged and the run completes without an exception, and when that call itself
rejects the run ends with the rejection. -/
theorem error_path_by_reply_state (env : Env) (i : Interaction) (st : Storage) (c : Ctx)
    (hcmd : i.isChatInputCommand = true)
    (hthrow : switchCommand env i (Ctx.start st) = .threw c) :
    runInteraction env i st = catchBlock env c ∧
    (∀ (env2 : Env) (c2 : Ctx),
      catchBlock env2 c2 = issue env2 (errorPath c2.replied c2.deferred) c2) ∧
    (runInteraction env i st).ctx.calls = c.calls + 1 ∧
    (env.replyFails c.calls = false →
      (runInteraction env i st).isThrow = false ∧
      (runInteraction env i st).ctx.log = c.log ++ [errorPath c.replied c.deferred] ∧
      (runInteraction env i st).ctx.storage = c.storage) ∧
    (env.replyFails c.calls = true →
      runInteraction env i st = .threw { c with calls := c.calls + 1 }) ∧
    errorPath false false = .reply (.ephemeral errorMessage) ∧
    errorPath true false = .followUp (.ephemeral errorMessage) ∧
    errorPath false true = .editReply (.text errorMessage) ∧
    errorPath true true = .editReply (.text errorMessage) ∧
    errorMessage = "\u201a\xf9\xe5 An error occurred while executing this command." := by
  have hrun : runInteraction env i st = catchBlock env c := by
    simp only [runInteraction, interactionCreate, hcmd]
    simp [tryCatch, hthrow]
  refine ⟨hrun, ?_, ?_, ?_, ?_, rfl, rfl, rfl, rfl, by decide⟩
  · intro env2 c2
    unfold catchBlock errorPath
    cases hr : c2.replied <;> cases hd : c2.deferred <;> simp [issue]
  · rw [hrun]
    cases h : env.replyFails c.calls
    · rw [catchBlock_ok env c h]; rfl
    · rw [catchBlock_fails env c h]; rfl
  · intro h
    rw [hrun, catchBlock_ok env c h]
    exact ⟨rfl, rfl, rfl⟩
  · intro h
    rw [hrun, catchBlock_fails env c h]

/-- C14 at concrete inputs: `warn` without its user option throws before any
reply and the error goes out as a fresh ephemeral reply; a poll whose first
reaction is rejected throws after the reply and the error goes out as a
follow-up. -/
theorem error_path_by_reply_state_witness :
    (runInteraction sampleEnv (sampleCommand "warn" (sampleUser "1") none [])
      Storage.empty).ctx.log = [.reply (.ephemeral errorMessage)] ∧
    (runInteraction
      ⟨0, fun _ => 0, fun _ => false, false, false, fun _ => true, false, none, fun _ => true⟩
      (sampleCommand "poll" (sampleUser "1") none [("question", "q"), ("options", "a,b")])
      Storage.empty).ctx.log =
      [.reply (.embeds ⟨some "\uf8ff\xfc\xec\xe4 q", some ("1" ++ keycap ++ " a\n2" ++ keycap ++ " b"),
          none, none, some "#5865F2", none, []⟩),
       .followUp (.ephemeral errorMessage)] := by
  constructor
  · rw [((error_path_by_reply_state sampleEnv (sampleCommand "warn" (sampleUser "1") none [])
      Storage.empty (Ctx.start Storage.empty) rfl rfl).2.2.2.1 rfl).2.1]
    rfl
  · decide


/-! ## One reply per interaction -/

theorem switchCommand_petpet (env : Env) (i : Interaction) (h : i.commandName = "petpet") :
    switchCommand env i = petpetCase env i := by
  simp [switchCommand, h]

theorem switchCommand_kick (env : Env) (i : Interaction) (h : i.commandName = "kick") :
    switchCommand env i = kickCase env i := by
  simp [switchCommand, h]

theorem switchCommand_ban (env : Env) (i : Interaction) (h : i.commandName = "ban") :
    switchCommand env i = banCase env i := by
  simp [switchCommand, h]

theorem switchCommand_clear (env : Env) (i : Interaction) (h : i.commandName = "clear") :
    switchCommand env i = clearCase env i := by
  simp [switchCommand, h]

theorem switchCommand_avatar (env : Env) (i : Interaction) (h : i.commandName = "avatar") :
    switchCommand env i = avatarCase env i := by
  simp [switchCommand, h]

theorem switchCommand_userinfo (env : Env) (i : Interaction) (h : i.commandName = "userinfo") :
    switchCommand env i = userinfoCase env i := by
  simp [switchCommand, h]

theorem switchCommand_serverinfo (env : Env) (i : Interaction) (h : i.commandName = "serverinfo") :
    switchCommand env i = serverinfoCase env i := by
  simp [switchCommand, h]

theorem switchCommand_meme (env : Env) (i : Interaction) (h : i.commandName = "meme") :
    switchCommand env i = memeCase env i := by
  simp [switchCommand, h]

theorem switchCommand_joke (env : Env) (i : Interaction) (h : i.commandName = "joke") :
    switchCommand env i = jokeCase env i := by
  simp [switchCommand, h]

theorem switchCommand_eightBall (env : Env) (i : Interaction) (h : i.commandName = "8ball") :
    switchCommand env i = eightBallCase env i := by
  simp [switchCommand, h]

theorem switchCommand_help (env : Env) (i : Interaction) (h : i.commandName = "help") :
    switchCommand env i = helpCase env i := by
  simp [switchCommand, h]

/-- The loop of reactions logs only reactions; it throws only when a reaction
is rejected. -/
theorem reactLoop_shape (env : Env) (i k : Nat) (c : Ctx) :
    ∃ L : List Effect, replyTrace L = [] ∧
      (reactLoop env i k c = .ok { c with log := c.log ++ L } ∨
       ((∃ j, env.reactFails j = true) ∧
         reactLoop env i k c = .threw { c with log := c.log ++ L })) := by
  induction k generalizing i c with
  | zero => exact ⟨[], rfl, Or.inl (by simp [reactLoop, skip])⟩
  | succ k ih =>
    cases hf : env.reactFails i
    · obtain ⟨L, hL, h⟩ := ih (i + 1) { c with log := c.log ++ [.react (pollEmoji i)] }
      refine ⟨.react (pollEmoji i) :: L, ?_, ?_⟩
      · simpa [replyTrace, Effect.isReplyPrimitive] using hL
      · rcases h with h | ⟨hj, h⟩
        · left
          simp [reactLoop, andThen, perform, hf, h]
        · right
          refine ⟨hj, ?_⟩
          simp [reactLoop, andThen, perform, hf, h]
    · exact ⟨[], rfl, Or.inr ⟨⟨i, hf⟩, by simp [reactLoop, andThen, perform, hf]⟩⟩


theorem oneReply_petpet (env : Env) (i : Interaction) (st : Storage)
    (hok : ∀ n, env.replyFails n = false) :
    OneReply False (tryCatch (petpetCase env i) (catchBlock env) (Ctx.start st)) := by
  unfold petpetCase
  simp only [withEmbed]
  generalize Embed.valid env.acceptsUrl _ = b
  cases hp : env.patFails <;> cases b <;> simp [OneReply, tryCatch, andThen, perform, reply, deferReply, editReply, followUp, raise, skip, updateStorage, catchBlock, Ctx.start, hok, replyTrace, Effect.isReplyPrimitive, Res.isThrow, Res.ctx, generatePetPetGif, hp]

theorem oneReply_kick (env : Env) (i : Interaction) (st : Storage)
    (hok : ∀ n, env.replyFails n = false) :
    OneReply False (tryCatch (kickCase env i) (catchBlock env) (Ctx.start st)) := by
  unfold kickCase
  cases hg : i.guild with
  | none => simp [OneReply, tryCatch, andThen, perform, reply, deferReply, editReply, followUp, raise, skip, updateStorage, catchBlock, Ctx.start, hok, replyTrace, Effect.isReplyPrimitive, Res.isThrow, Res.ctx]
  | some guild =>
    cases hu : i.options.getUser "user" with
    | none => simp [OneReply, tryCatch, andThen, perform, reply, deferReply, editReply, followUp, raise, skip, updateStorage, catchBlock, Ctx.start, hok, replyTrace, Effect.isReplyPrimitive, Res.isThrow, Res.ctx]
    | some u =>
      cases hf : guild.fetchMember u.id with
      | none => simp [OneReply, tryCatch, andThen, perform, reply, deferReply, editReply, followUp, raise, skip, updateStorage, catchBlock, Ctx.start, hok, replyTrace, Effect.isReplyPrimitive, Res.isThrow, Res.ctx, hf]
      | some m =>
        cases hka : m.kickable <;> cases hk : env.kickFails <;>
          simp [OneReply, tryCatch, andThen, perform, reply, deferReply, editReply, followUp, raise, skip, updateStorage, catchBlock, Ctx.start, hok, replyTrace, Effect.isReplyPrimitive, Res.isThrow, Res.ctx, hf, hka, hk]

theorem oneReply_ban (env : Env) (i : Interaction) (st : Storage)
    (hok : ∀ n, env.replyFails n = false) :
    OneReply False (tryCatch (banCase env i) (catchBlock env) (Ctx.start st)) := by
  unfold banCase
  cases hg : i.guild with
  | none => simp [OneReply, tryCatch, andThen, perform, reply, deferReply, editReply, followUp, raise, skip, updateStorage, catchBlock, Ctx.start, hok, replyTrace, Effect.isReplyPrimitive, Res.isThrow, Res.ctx]
  | some guild =>
    cases hu : i.options.getUser "user" with
    | none => simp [OneReply, tryCatch, andThen, perform, reply, deferReply, editReply, followUp, raise, skip, updateStorage, catchBlock, Ctx.start, hok, replyTrace, Effect.isReplyPrimitive, Res.isThrow, Res.ctx]
    | some u =>
      cases hf : guild.fetchMember u.id with
      | none => simp [OneReply, tryCatch, andThen, perform, reply, deferReply, editReply, followUp, raise, skip, updateStorage, catchBlock, Ctx.start, hok, replyTrace, Effect.isReplyPrimitive, Res.isThrow, Res.ctx, hf]
      | some m =>
        cases hka : m.bannable <;> cases hk : env.banFails <;>
          simp [OneReply, tryCatch, andThen, perform, reply, deferReply, editReply, followUp, raise, skip, updateStorage, catchBlock, Ctx.start, hok, replyTrace, Effect.isReplyPrimitive, Res.isThrow, Res.ctx, hf, hka, hk]

theorem oneReply_warn (env : Env) (i : Interaction) (st : Storage)
    (hok : ∀ n, env.replyFails n = false) :
    OneReply False (tryCatch (warnCase env i) (catchBlock env) (Ctx.start st)) := by
  unfold warnCase
  cases hu : i.options.getUser "user" with
  | none => simp [OneReply, tryCatch, andThen, perform, reply, deferReply, editReply, followUp, raise, skip, updateStorage, catchBlock, Ctx.start, hok, replyTrace, Effect.isReplyPrimitive, Res.isThrow, Res.ctx]
  | some u => simp [OneReply, tryCatch, andThen, perform, reply, deferReply, editReply, followUp, raise, skip, updateStorage, catchBlock, Ctx.start, hok, replyTrace, Effect.isReplyPrimitive, Res.isThrow, Res.ctx]

theorem oneReply_warnings (env : Env) (i : Interaction) (st : Storage)
    (hok : ∀ n, env.replyFails n = false) :
    OneReply False (tryCatch (warningsCase env i) (catchBlock env) (Ctx.start st)) := by
  unfold warningsCase
  cases hu : i.options.getUser "user" with
  | none => simp [OneReply, tryCatch, andThen, perform, reply, deferReply, editReply, followUp, raise, skip, updateStorage, catchBlock, Ctx.start, hok, replyTrace, Effect.isReplyPrimitive, Res.isThrow, Res.ctx]
  | some u =>
    simp only [tryCatch, withEmbed, Ctx.start]
    generalize Embed.valid env.acceptsUrl _ = b
    cases b <;> simp [OneReply, tryCatch, andThen, perform, reply, deferReply, editReply, followUp, raise, skip, updateStorage, catchBlock, Ctx.start, hok, replyTrace, Effect.isReplyPrimitive, Res.isThrow, Res.ctx]

theorem oneReply_clear (env : Env) (i : Interaction) (st : Storage)
    (hok : ∀ n, env.replyFails n = false) :
    OneReply False (tryCatch (clearCase env i) (catchBlock env) (Ctx.start st)) := by
  unfold clearCase
  cases hc : i.channel with
  | none => simp [OneReply, tryCatch, andThen, perform, reply, deferReply, editReply, followUp, raise, skip, updateStorage, catchBlock, Ctx.start, hok, replyTrace, Effect.isReplyPrimitive, Res.isThrow, Res.ctx]
  | some channel =>
    cases hb : channel.bulkDelete (i.options.getInteger "amount") with
    | none => simp [OneReply, tryCatch, andThen, perform, reply, deferReply, editReply, followUp, raise, skip, updateStorage, catchBlock, Ctx.start, hok, replyTrace, Effect.isReplyPrimitive, Res.isThrow, Res.ctx, hb]
    | some size => simp [OneReply, tryCatch, andThen, perform, reply, deferReply, editReply, followUp, raise, skip, updateStorage, catchBlock, Ctx.start, hok, replyTrace, Effect.isReplyPrimitive, Res.isThrow, Res.ctx, hb]

theorem oneReply_avatar (env : Env) (i : Interaction) (st : Storage)
    (hok : ∀ n, env.replyFails n = false) :
    OneReply False (tryCatch (avatarCase env i) (catchBlock env) (Ctx.start st)) := by
  unfold avatarCase
  simp only [withEmbed]
  generalize Embed.valid env.acceptsUrl _ = b
  cases b <;> simp [OneReply, tryCatch, andThen, perform, reply, deferReply, editReply, followUp, raise, skip, updateStorage, catchBlock, Ctx.start, hok, replyTrace, Effect.isReplyPrimitive, Res.isThrow, Res.ctx]

theorem oneReply_userinfo (env : Env) (i : Interaction) (st : Storage)
    (hok : ∀ n, env.replyFails n = false) :
    OneReply False (tryCatch (userinfoCase env i) (catchBlock env) (Ctx.start st)) := by
  unfold userinfoCase
  cases hg : i.guild with
  | none => simp [OneReply, tryCatch, andThen, perform, reply, deferReply, editReply, followUp, raise, skip, updateStorage, catchBlock, Ctx.start, hok, replyTrace, Effect.isReplyPrimitive, Res.isThrow, Res.ctx]
  | some guild =>
    cases hf : guild.fetchMember ((i.options.getUser "user").getD i.user).id with
    | none => simp [OneReply, tryCatch, andThen, perform, reply, deferReply, editReply, followUp, raise, skip, updateStorage, catchBlock, Ctx.start, hok, replyTrace, Effect.isReplyPrimitive, Res.isThrow, Res.ctx, hf]
    | some m =>
      simp only [hf, withEmbed]
      generalize Embed.valid env.acceptsUrl _ = b
      cases b <;> simp [OneReply, tryCatch, andThen, perform, reply, deferReply, editReply, followUp, raise, skip, updateStorage, catchBlock, Ctx.start, hok, replyTrace, Effect.isReplyPrimitive, Res.isThrow, Res.ctx]

theorem oneReply_serverinfo (env : Env) (i : Interaction) (st : Storage)
    (hok : ∀ n, env.replyFails n = false) :
    OneReply False (tryCatch (serverinfoCase env i) (catchBlock env) (Ctx.start st)) := by
  unfold serverinfoCase
  cases hg : i.guild with
  | none => simp [OneReply, tryCatch, andThen, perform, reply, deferReply, editReply, followUp, raise, skip, updateStorage, catchBlock, Ctx.start, hok, replyTrace, Effect.isReplyPrimitive, Res.isThrow, Res.ctx]
  | some guild =>
    simp only [withEmbed]
    generalize Embed.valid env.acceptsUrl _ = b
    cases b <;> simp [OneReply, tryCatch, andThen, perform, reply, deferReply, editReply, followUp, raise, skip, updateStorage, catchBlock, Ctx.start, hok, replyTrace, Effect.isReplyPrimitive, Res.isThrow, Res.ctx]

theorem oneReply_remind (env : Env) (i : Interaction) (st : Storage)
    (hok : ∀ n, env.replyFails n = false) :
    OneReply False (tryCatch (remindCase env i) (catchBlock env) (Ctx.start st)) := by
  unfold remindCase
  cases ht : i.options.getString "time" with
  | none => simp [OneReply, tryCatch, andThen, perform, reply, deferReply, editReply, followUp, raise, skip, updateStorage, catchBlock, Ctx.start, hok, replyTrace, Effect.isReplyPrimitive, Res.isThrow, Res.ctx]
  | some t => cases hn : jsNot (parseTime t) <;> simp [OneReply, tryCatch, andThen, perform, reply, deferReply, editReply, followUp, raise, skip, updateStorage, catchBlock, Ctx.start, hok, replyTrace, Effect.isReplyPrimitive, Res.isThrow, Res.ctx, hn]

theorem oneReply_afk (env : Env) (i : Interaction) (st : Storage)
    (hok : ∀ n, env.replyFails n = false) :
    OneReply False (tryCatch (afkCase env i) (catchBlock env) (Ctx.start st)) := by
  unfold afkCase
  simp [OneReply, tryCatch, andThen, perform, reply, deferReply, editReply, followUp, raise, skip, updateStorage, catchBlock, Ctx.start, hok, replyTrace, Effect.isReplyPrimitive, Res.isThrow, Res.ctx]

theorem oneReply_meme (env : Env) (i : Interaction) (st : Storage)
    (hok : ∀ n, env.replyFails n = false) :
    OneReply False (tryCatch (memeCase env i) (catchBlock env) (Ctx.start st)) := by
  unfold memeCase
  cases hm : env.meme with
  | none => simp [OneReply, tryCatch, andThen, perform, reply, deferReply, editReply, followUp, raise, skip, updateStorage, catchBlock, Ctx.start, hok, replyTrace, Effect.isReplyPrimitive, Res.isThrow, Res.ctx]
  | some m =>
    obtain ⟨title, url⟩ := m
    simp only [withEmbed]
    generalize Embed.valid env.acceptsUrl _ = b
    cases b <;> simp [OneReply, tryCatch, andThen, perform, reply, deferReply, editReply, followUp, raise, skip, updateStorage, catchBlock, Ctx.start, hok, replyTrace, Effect.isReplyPrimitive, Res.isThrow, Res.ctx]

theorem oneReply_joke (env : Env) (i : Interaction) (st : Storage)
    (hok : ∀ n, env.replyFails n = false) :
    OneReply False (tryCatch (jokeCase env i) (catchBlock env) (Ctx.start st)) := by
  unfold jokeCase
  simp [OneReply, tryCatch, andThen, perform, reply, deferReply, editReply, followUp, raise, skip, updateStorage, catchBlock, Ctx.start, hok, replyTrace, Effect.isReplyPrimitive, Res.isThrow, Res.ctx]

theorem oneReply_eightBall (env : Env) (i : Interaction) (st : Storage)
    (hok : ∀ n, env.replyFails n = false) :
    OneReply False (tryCatch (eightBallCase env i) (catchBlock env) (Ctx.start st)) := by
  unfold eightBallCase
  simp [OneReply, tryCatch, andThen, perform, reply, deferReply, editReply, followUp, raise, skip, updateStorage, catchBlock, Ctx.start, hok, replyTrace, Effect.isReplyPrimitive, Res.isThrow, Res.ctx]

theorem oneReply_help (env : Env) (i : Interaction) (st : Storage)
    (hok : ∀ n, env.replyFails n = false) :
    OneReply False (tryCatch (helpCase env i) (catchBlock env) (Ctx.start st)) := by
  unfold helpCase
  simp only [withEmbed]
  generalize Embed.valid env.acceptsUrl _ = b
  cases b <;> simp [OneReply, tryCatch, andThen, perform, reply, deferReply, editReply, followUp, raise, skip, updateStorage, catchBlock, Ctx.start, hok, replyTrace, Effect.isReplyPrimitive, Res.isThrow, Res.ctx]

theorem oneReply_default (env : Env) (i : Interaction) (st : Storage)
    (hok : ∀ n, env.replyFails n = false) :
    OneReply False (tryCatch (defaultCase env i) (catchBlock env) (Ctx.start st)) := by
  unfold defaultCase
  cases hh : st.customCommands.has i.commandName <;> simp [OneReply, tryCatch, andThen, perform, reply, deferReply, editReply, followUp, raise, skip, updateStorage, catchBlock, Ctx.start, hok, replyTrace, Effect.isReplyPrimitive, Res.isThrow, Res.ctx, hh]

theorem replyTrace_append (l1 l2 : List Effect) :
    replyTrace (l1 ++ l2) = replyTrace l1 ++ replyTrace l2 := by
  simp [replyTrace]

theorem oneReply_poll (env : Env) (i : Interaction) (st : Storage)
    (hok : ∀ n, env.replyFails n = false) :
    OneReply (∃ k, env.reactFails k = true)
      (tryCatch (pollCase env i) (catchBlock env) (Ctx.start st)) := by
  unfold pollCase
  cases ho : i.options.getString "options" with
  | none => simp [OneReply, tryCatch, andThen, perform, reply, deferReply, editReply, followUp, raise, skip, updateStorage, catchBlock, Ctx.start, hok, replyTrace, Effect.isReplyPrimitive, Res.isThrow, Res.ctx]
  | some o =>
    by_cases hlen : (pollOptions o).length < 2 ∨ (pollOptions o).length > 10
    · simp [OneReply, tryCatch, andThen, perform, reply, deferReply, editReply, followUp, raise, skip, updateStorage, catchBlock, Ctx.start, hok, replyTrace, Effect.isReplyPrimitive, Res.isThrow, Res.ctx, hlen]
    · simp only [hlen, if_false, withEmbed]
      generalize Embed.valid env.acceptsUrl _ = b
      generalize Payload.embeds _ = p
      cases b
      · simp [OneReply, tryCatch, andThen, perform, reply, deferReply, editReply, followUp, raise, skip, updateStorage, catchBlock, Ctx.start, hok, replyTrace, Effect.isReplyPrimitive, Res.isThrow, Res.ctx]
      · simp only [tryCatch, andThen, reply, Ctx.start, hok, Bool.or_self,
          Bool.false_eq_true, List.nil_append, if_true, if_false]
        obtain ⟨L, hL, h⟩ := reactLoop_shape env 0 (pollOptions o).length
          ⟨st, true, false, 1, [.reply p]⟩
        rcases h with h | ⟨hj, h⟩
        · rw [h]
          refine ⟨rfl, Or.inl ⟨p, ?_⟩⟩
          simp only [Res.ctx]
          rw [replyTrace_append, hL]
          rfl
        · rw [h]
          refine ⟨?_, Or.inr (Or.inl ⟨hj, p, ?_⟩)⟩
          · simp [catchBlock, followUp, hok, Res.isThrow]
          · simp only [catchBlock, followUp, hok, Res.ctx, Bool.not_true, Bool.false_and,
              Bool.false_eq_true, if_false]
            rw [replyTrace_append, replyTrace_append, hL]
            rfl

theorem oneReply_weaken (q : Prop) (r : Res) (h : OneReply False r) : OneReply q r := by
  obtain ⟨h1, h2⟩ := h
  refine ⟨h1, ?_⟩
  rcases h2 with h2 | ⟨hf, _⟩ | h2
  · exact Or.inl h2
  · exact absurd hf id
  · exact Or.inr (Or.inr h2)

/-- Every run of the `switch` and the catch block with working reply
primitives has the shape `OneReply`. -/
theorem oneReply_switch (env : Env) (i : Interaction) (st : Storage)
    (hok : ∀ n, env.replyFails n = false) :
    OneReply (i.commandName = "poll" ∧ ∃ k, env.reactFails k = true)
      (tryCatch (switchCommand env i) (catchBlock env) (Ctx.start st)) := by
  by_cases n_petpet : i.commandName = "petpet"
  · rw [switchCommand_petpet env i n_petpet]
    exact oneReply_weaken _ _ (oneReply_petpet env i st hok)
  by_cases n_kick : i.commandName = "kick"
  · rw [switchCommand_kick env i n_kick]
    exact oneReply_weaken _ _ (oneReply_kick env i st hok)
  by_cases n_ban : i.commandName = "ban"
  · rw [switchCommand_ban env i n_ban]
    exact oneReply_weaken _ _ (oneReply_ban env i st hok)
  by_cases n_warn : i.commandName = "warn"
  · rw [switchCommand_warn env i n_warn]
    exact oneReply_weaken _ _ (oneReply_warn env i st hok)
  by_cases n_warnings : i.commandName = "warnings"
  · rw [switchCommand_warnings env i n_warnings]
    exact oneReply_weaken _ _ (oneReply_warnings env i st hok)
  by_cases n_clear : i.commandName = "clear"
  · rw [switchCommand_clear env i n_clear]
    exact oneReply_weaken _ _ (oneReply_clear env i st hok)
  by_cases n_avatar : i.commandName = "avatar"
  · rw [switchCommand_avatar env i n_avatar]
    exact oneReply_weaken _ _ (oneReply_avatar env i st hok)
  by_cases n_userinfo : i.commandName = "userinfo"
  · rw [switchCommand_userinfo env i n_userinfo]
    exact oneReply_weaken _ _ (oneReply_userinfo env i st hok)
  by_cases n_serverinfo : i.commandName = "serverinfo"
  · rw [switchCommand_serverinfo env i n_serverinfo]
    exact oneReply_weaken _ _ (oneReply_serverinfo env i st hok)
  by_cases n_poll : i.commandName = "poll"
  · rw [switchCommand_poll env i n_poll]
    obtain ⟨h1, h2⟩ := oneReply_poll env i st hok
    refine ⟨h1, ?_⟩
    rcases h2 with h2 | ⟨hk, h2⟩ | h2
    · exact Or.inl h2
    · exact Or.inr (Or.inl ⟨⟨n_poll, hk⟩, h2⟩)
    · exact Or.inr (Or.inr h2)
  by_cases n_remind : i.commandName = "remind"
  · rw [switchCommand_remind env i n_remind]
    exact oneReply_weaken _ _ (oneReply_remind env i st hok)
  by_cases n_afk : i.commandName = "afk"
  · rw [switchCommand_afk env i n_afk]
    exact oneReply_weaken _ _ (oneReply_afk env i st hok)
  by_cases n_meme : i.commandName = "meme"
  · rw [switchCommand_meme env i n_meme]
    exact oneReply_weaken _ _ (oneReply_meme env i st hok)
  by_cases n_joke : i.commandName = "joke"
  · rw [switchCommand_joke env i n_joke]
    exact oneReply_weaken _ _ (oneReply_joke env i st hok)
  by_cases n_eightBall : i.commandName = "8ball"
  · rw [switchCommand_eightBall env i n_eightBall]
    exact oneReply_weaken _ _ (oneReply_eightBall env i st hok)
  by_cases n_help : i.commandName = "help"
  · rw [switchCommand_help env i n_help]
    exact oneReply_weaken _ _ (oneReply_help env i st hok)
  have hdef : i.commandName ∉ caseNames := by
    simp only [caseNames, List.mem_cons, List.mem_singleton, List.not_mem_nil, or_false,
      not_or]
    exact ⟨n_petpet, n_kick, n_ban, n_warn, n_warnings, n_clear, n_avatar, n_userinfo,
      n_serverinfo, n_poll, n_remind, n_afk, n_meme, n_joke, n_eightBall, n_help⟩
  rw [switchCommand_default env i hdef]
  exact oneReply_weaken _ _ (oneReply_default env i st hok)

/-- C13: with reply primitives that do not fail, and whatever the outcome of
the other platform and HTTP calls, one run of the dispatcher on a command
completes, and the reply primitives it issues are exactly one initial reply and
no deferral (followed by the error follow-up in the one case of a poll whose
reaction call is rejected), or exactly one deferral followed by exactly one
edit. -/
theorem one_reply_per_interaction (env : Env) (i : Interaction) (st : Storage)
    (hcmd : i.isChatInputCommand = true) (hok : ∀ n, env.replyFails n = false) :
    (runInteraction env i st).isThrow = false ∧
    ((∃ p, replyTrace (runInteraction env i st).ctx.log = [.reply p]) ∨
     ((i.commandName = "poll" ∧ ∃ k, env.reactFails k = true) ∧
       ∃ p, replyTrace (runInteraction env i st).ctx.log =
         [.reply p, .followUp (.ephemeral errorMessage)]) ∨
     (∃ p, replyTrace (runInteraction env i st).ctx.log = [.deferReply, .editReply p])) := by
  have h := oneReply_switch env i st hok
  have hrun : runInteraction env i st =
      tryCatch (switchCommand env i) (catchBlock env) (Ctx.start st) := by
    simp [runInteraction, interactionCreate, hcmd]
  rw [hrun]
  exact h

/-- C13 at concrete inputs: `meme` while the meme service is down is one
deferral and one edit; `userinfo` outside a guild is one reply, the error
message. -/
theorem one_reply_per_interaction_witness :
    replyTrace (runInteraction sampleEnv (sampleCommand "meme" (sampleUser "1") none [])
      Storage.empty).ctx.log =
      [.deferReply, .editReply (.text "\u201a\xf9\xe5 Failed to fetch meme!")] ∧
    replyTrace (runInteraction sampleEnv (sampleCommand "userinfo" (sampleUser "1") none [])
      Storage.empty).ctx.log = [.reply (.ephemeral errorMessage)] ∧
    (runInteraction sampleEnv (sampleCommand "userinfo" (sampleUser "1") none [])
      Storage.empty).isThrow = false := by
  refine ⟨by decide, by decide, ?_⟩
  exact (one_reply_per_interaction sampleEnv
    (sampleCommand "userinfo" (sampleUser "1") none []) Storage.empty rfl (fun _ => rfl)).1


end LimeCord
